import Mathlib

/-!
# MPPT controller (`lib/MPPTLib/solar.cpp`): control and decision engine

A shallow embedding of the `Solar` class of `solar.cpp` and theorems about it.

Modelling conventions
* `float` / `double` quantities (volts, amps, gains) are rationals `ℚ`: no NaN and
  no infinities as inputs. Arithmetic on them is exact, except in `hasCollapsed`,
  whose two voltage comparisons sit on products and quotients of the inputs and do
  depend on the rounding: there the `double` product and the `float` difference
  and quotient are rounded as IEEE 754 does (`roundF64`, `roundF32`).
* `uint32_t` millisecond counters are naturals reduced modulo `2^32`.
* `int` values are integers; where a result could leave the 32-bit range the
  wrap is explicit (`wrapInt`) and theorems carry in-range hypotheses.
* Logging, `printStatus` and the publish "dirty" flags only produce output and
  are left out.
* The clock `millis()` is the field `millis` of the model state; only `delay`
  advances it.
-/

namespace MPPT

/-! ## Machine arithmetic -/

/-- Number of values of a `uint32_t`. -/
def U32 : Nat := 4294967296

/-- Smallest `int`. -/
def INT_MIN : Int := -2147483648

/-- Largest `int`. -/
def INT_MAX : Int := 2147483647

/-- Two's-complement reduction of an integer to the 32-bit `int` range. -/
def wrapInt (x : Int) : Int := (x + 2147483648) % 4294967296 - 2147483648

/-- Conversion of an `int` to `uint32_t`. -/
def toU32 (x : Int) : Nat := (x % 4294967296).toNat

/-- The `uint32_t` sum `a + b`. -/
def addU32 (a b : Nat) : Nat := (a + b) % U32

/-- The `uint32_t` difference `a - b`. -/
def subU32 (a b : Nat) : Nat := (a % U32 + U32 - b % U32) % U32

/-- Arduino `constrain(amt, low, high)`. -/
def constrain (amt low high : ℚ) : ℚ :=
  if amt < low then low else if amt > high then high else amt

/-! ## Floating point -/

/-- The integer nearest to `q`, a tie going to the even one. -/
def roundHalfEven (q : ℚ) : Int :=
  if q - (⌊q⌋ : ℚ) < 1 / 2 then ⌊q⌋
  else if q - (⌊q⌋ : ℚ) > 1 / 2 then ⌊q⌋ + 1
  else if ⌊q⌋ % 2 = 0 then ⌊q⌋ else ⌊q⌋ + 1

/-- The result of a floating-point operation: a number, an infinity, or NaN. -/
inductive FVal where
  | num (q : ℚ)
  | posInf
  | negInf
  | nan
  deriving DecidableEq, Repr

/-- IEEE 754 rounding (to nearest, ties to even) of the exact value `x` to the binary
format with `prec` significant bits, least normal exponent `emin` and greatest
exponent `emax`: below `2^emin` the spacing stays that of the subnormal numbers, and
a result of magnitude `2^(emax+1)` or more is an infinity. Zero carries no sign. -/
def roundFmt (prec : Nat) (emin emax : Int) (x : ℚ) : FVal :=
  if x = 0 then FVal.num 0
  else
    let e : Int := max (Int.log 2 |x|) emin
    let ulp : ℚ := (2 : ℚ) ^ (e - ((prec : Int) - 1))
    let y : ℚ := (roundHalfEven (x / ulp) : ℚ) * ulp
    if y ≥ (2 : ℚ) ^ (emax + 1) then FVal.posInf
    else if y ≤ -(2 : ℚ) ^ (emax + 1) then FVal.negInf
    else FVal.num y

/-- Rounding to `double`. -/
def roundF64 (x : ℚ) : FVal := roundFmt 53 (-1022) 1023 x

/-- Rounding to `float`. -/
def roundF32 (x : ℚ) : FVal := roundFmt 24 (-126) 127 x

/-- The `double` literal `1.11`: the double nearest to 1.11 (see `roundF64_literal_111`). -/
def double111 : ℚ := 4998995586381251 / 4503599627370496

/-- The `double` literal `0.05`: the double nearest to 0.05 (see `roundF64_literal_005`). -/
def double005 : ℚ := 3602879701896397 / 72057594037927936

/-- The `double` product `a * b` of two finite values. -/
def mulF64 (a b : ℚ) : FVal := roundF64 (a * b)

/-- The `float` difference `a - b` of two finite values. -/
def subF32 (a b : ℚ) : FVal := roundF32 (a - b)

/-- The `float` quotient `a / b` for a finite divisor `b` (a zero divisor being `+0.0`). -/
def divF32 (a : FVal) (b : ℚ) : FVal :=
  match a with
  | FVal.nan => FVal.nan
  | FVal.posInf => if b ≥ 0 then FVal.posInf else FVal.negInf
  | FVal.negInf => if b ≥ 0 then FVal.negInf else FVal.posInf
  | FVal.num q =>
    if b = 0 then (if q > 0 then FVal.posInf else if q < 0 then FVal.negInf else FVal.nan)
    else roundF32 (q / b)

/-- The comparison `a < b` of a floating-point result `a` with a finite value `b`. -/
def FVal.ltNum (a : FVal) (b : ℚ) : Bool :=
  match a with
  | FVal.num q => decide (q < b)
  | FVal.posInf => false
  | FVal.negInf => true
  | FVal.nan => false

/-- The comparison `a < b` of a finite value `a` with a floating-point result `b`. -/
def FVal.gtNum (b : FVal) (a : ℚ) : Bool :=
  match b with
  | FVal.num q => decide (a < q)
  | FVal.posInf => true
  | FVal.negInf => false
  | FVal.nan => false

/-! ## Data model -/

/-- The operating states (`States::off`, ... in the source, distinct string constants). -/
inductive States where
  | off
  | mppt
  | sweeping
  | collapsemode
  | capped
  | full_cv
  | error
  deriving DecidableEq, Repr, Inhabited

/-- One sweep observation (`SPoint`): output voltage, output current, input voltage, collapsed flag. -/
structure SPoint where
  v : ℚ
  i : ℚ
  input : ℚ
  collapsed : Bool
  deriving DecidableEq, Repr, Inhabited

/-- Modelled from the spec: `SPoint::p()` is declared in the absent `solar.h`; the
spec gives it as the derived power value, voltage times current. -/
def SPoint.p (pt : SPoint) : ℚ := pt.v * pt.i

/-- Modelled from the spec: the `PowerSupply` class lives in the absent
`powerSupplies.h`. The record holds the telemetry fields `solar.cpp` reads, the
answers of the three const queries `isCV()`, `isCollapsed()`, `isDrok()`, and a
number standing for whatever else the device driver keeps (bus state, retries). -/
structure PowerSupply where
  outEn_ : Bool
  outVolt_ : ℚ
  outCurr_ : ℚ
  limitCurr_ : ℚ
  limitVolt_ : ℚ
  currFilt_ : ℚ
  lastSuccess_ : Nat
  cv : Bool
  clps : Bool
  drok : Bool
  hidden : Nat
  deriving DecidableEq, Repr, Inhabited

/-- The query `PowerSupply::isCV()`. -/
def PowerSupply.isCV (p : PowerSupply) : Bool := p.cv

/-- The query `PowerSupply::isCollapsed()`. -/
def PowerSupply.isCollapsed (p : PowerSupply) : Bool := p.clps

/-- The query `PowerSupply::isDrok()`. -/
def PowerSupply.isDrok (p : PowerSupply) : Bool := p.drok

/-- The commands of the PSU capability and the ADC, whose code is not part of
`solar.cpp`: they are a parameter of the model. Each command maps the device
record to a new one (any field may change) and returns its result. -/
structure Hardware where
  setCurrent : ℚ → PowerSupply → Bool × PowerSupply
  enableOutput : Bool → PowerSupply → PowerSupply
  doUpdate : PowerSupply → Bool × PowerSupply
  readCurrent : PowerSupply → PowerSupply
  getInputVolt : ℚ → PowerSupply → Bool × ℚ × PowerSupply
  analogRead : Int → Nat → Int

/-- A PSU command issued by the controller (ghost record, for counting commands). -/
inductive PsuCmd where
  | setCurrent (c : ℚ)
  | enableOutput (b : Bool)
  | doUpdate
  | readCurrent
  | getInputVolt
  deriving DecidableEq, Repr

/-- Ways in which a call leaves defined behaviour. -/
inductive Fault where
  | nullDeref
  | emptyBack
  deriving DecidableEq, Repr

/-- Result of a call that may fault. -/
inductive Res (α : Type) where
  | ok (a : α)
  | fault (f : Fault)
  deriving DecidableEq, Repr

/-- The controller: the members of `Solar` and the file-level scheduling
variables that the modelled functions touch, the clock `millis`, and the ghost
list `cmds` of PSU commands issued so far. -/
structure Solar where
  state_ : States
  psu_ : Option PowerSupply
  sweepPoints_ : List SPoint
  collapses_ : List Nat
  backoffLevel_ : Int
  setpoint_ : ℚ
  inVolt_ : ℚ
  pgain_ : ℚ
  ramplimit_ : ℚ
  currentCap_ : ℚ
  offThreshold_ : ℚ
  vadjust_ : ℚ
  autoSweep_ : Int
  adjustPeriod_ : Int
  pinInvolt_ : Int
  nextSolarAdjust_ : Nat
  nextAutoSweep_ : Nat
  lastAutoSweep_ : Nat
  millis : Nat
  cmds : List PsuCmd
  deriving DecidableEq, Repr

namespace Solar

/-- The object `psu_` points to; read only where `psu_` is known to be non-null. -/
def psu (s : Solar) : PowerSupply := s.psu_.getD default

/-- `delay(ms)`: the clock advances. -/
def delay (ms : Nat) (s : Solar) : Solar := { s with millis := addU32 s.millis ms }

/-- `psu_->setCurrent(c)`: result and new controller. -/
def psuSetCurrent (hw : Hardware) (c : ℚ) (s : Solar) : Bool × Solar :=
  ((hw.setCurrent c s.psu).1,
   { s with psu_ := s.psu_.map (fun p => (hw.setCurrent c p).2),
            cmds := s.cmds ++ [PsuCmd.setCurrent c] })

/-- `psu_->enableOutput(b)`. -/
def psuEnableOutput (hw : Hardware) (b : Bool) (s : Solar) : Solar :=
  { s with psu_ := s.psu_.map (hw.enableOutput b),
           cmds := s.cmds ++ [PsuCmd.enableOutput b] }

/-- `psu_->readCurrent()`. -/
def psuReadCurrent (hw : Hardware) (s : Solar) : Solar :=
  { s with psu_ := s.psu_.map hw.readCurrent,
           cmds := s.cmds ++ [PsuCmd.readCurrent] }

/-- `Solar::setState`: the assignment `state_ = state`. -/
def setState (st : States) (s : Solar) : Solar := { s with state_ := st }

/-- `Solar::getBackoff(period)`. -/
def getBackoff (s : Solar) (period : Int) : Int :=
  if s.backoffLevel_ ≤ 0 then period
  else wrapInt (Int.tdiv (wrapInt (wrapInt (s.backoffLevel_ * s.backoffLevel_) + 2)) 2 * period)

/-- `Solar::getCollapses()`. -/
def getCollapses (s : Solar) : Int := s.collapses_.length

/-- `Solar::hasCollapsed()`. `outVolt_ * 1.11` is a `double` product (the `float`
promoted, the literal a `double`) against which the promoted `inVolt_` is compared;
`collapsePct` is a `float`, computed with a `float` subtraction and division, and is
compared with the `double` literal `0.05`. -/
def hasCollapsed (s : Solar) : Bool :=
  match s.psu_ with
  | none => false
  | some p =>
    if !p.outEn_ then false
    else if !p.isDrok && p.isCollapsed then true
    else
      let simpleClps : Bool := (mulF64 p.outVolt_ double111).gtNum s.inVolt_
      let collapsePct : FVal := divF32 (subF32 s.inVolt_ p.outVolt_) p.outVolt_
      if simpleClps && p.isCollapsed then true
      else if collapsePct.ltNum double005 && p.isCollapsed then true
      else false

/-- `Solar::updatePSU()`. -/
def updatePSU (hw : Hardware) (s : Solar) : Bool × Solar :=
  match s.psu_ with
  | none => (false, s)
  | some p =>
    ((hw.doUpdate p).1,
     { s with psu_ := some (hw.doUpdate p).2, cmds := s.cmds ++ [PsuCmd.doUpdate] })

/-- The ADC branch of `measureInvolt`. -/
def analogInvolt (hw : Hardware) (s : Solar) : ℚ :=
  ((hw.analogRead s.pinInvolt_ s.millis : Int) : ℚ) * 3.3 * (s.vadjust_ / 3.3) / 4096.0

/-- `Solar::measureInvolt()`; the returned value is the new `inVolt_`. -/
def measureInvolt (hw : Hardware) (s : Solar) : Solar :=
  match s.psu_ with
  | none => { s with inVolt_ := analogInvolt hw s }
  | some p =>
    let r := hw.getInputVolt s.inVolt_ p
    let s1 : Solar := { s with psu_ := some r.2.2, cmds := s.cmds ++ [PsuCmd.getInputVolt] }
    if r.1 then
      let s2 : Solar := { s1 with inVolt_ := r.2.1 }
      if subU32 s2.millis r.2.2.lastSuccess_ > 600 then
        let s3 := (updatePSU hw s2).2
        let r2 := hw.getInputVolt s3.inVolt_ s3.psu
        { s3 with inVolt_ := r2.2.1, psu_ := s3.psu_.map (fun _ => r2.2.2),
                  cmds := s3.cmds ++ [PsuCmd.getInputVolt] }
      else s2
    else { s1 with inVolt_ := analogInvolt hw s1 }

/-- The polling loop of `restoreFromCollapse`,
`while ((millis() - start) < 8000 && measureInvolt() < offThreshold_) delay(25);`.
The first argument bounds the number of tests of the loop condition; 321 tests
are enough, see `restoreWait_fuel`. -/
def restoreWait (hw : Hardware) (start : Nat) : Nat → Solar → Solar
  | 0, s => s
  | fuel + 1, s =>
    if subU32 s.millis start < 8000 then
      if (s.measureInvolt hw).inVolt_ < (s.measureInvolt hw).offThreshold_ then
        restoreWait hw start fuel ((s.measureInvolt hw).delay 25)
      else s.measureInvolt hw
    else s

/-- The part of `restoreFromCollapse` after the polling loop. -/
def restoreFinish (hw : Hardware) (restoreCurrent : ℚ) (s : Solar) : Solar :=
  let s1 := s.measureInvolt hw
  let s2 : Solar :=
    if s1.offThreshold_ ≥ 1000 then { s1 with offThreshold_ := 0.992 * s1.inVolt_ } else s1
  (s2.psuSetCurrent hw restoreCurrent).2

/-- `Solar::restoreFromCollapse(restoreCurrent)`. It dereferences `psu_` unguarded. -/
def restoreFromCollapse (hw : Hardware) (restoreCurrent : ℚ) (s : Solar) : Res Solar :=
  match s.psu_ with
  | none => Res.fault Fault.nullDeref
  | some _ =>
    let s1 := (s.psuSetCurrent hw 0.01).2
    Res.ok (restoreFinish hw restoreCurrent (restoreWait hw s1.millis 321 s1))

/-- `Solar::applyAdjustment(current)`. -/
def applyAdjustment (hw : Hardware) (current : ℚ) (s : Solar) : Solar :=
  match s.psu_ with
  | none => s
  | some p =>
    if current ≠ p.limitCurr_ then
      (((s.psuSetCurrent hw current).2).delay 50).psuReadCurrent hw
    else s

/-- `Solar::startSweep()`. The first PSU access is unguarded. -/
def startSweep (hw : Hardware) (s : Solar) : Res Solar :=
  if s.state_ = States.error then Res.ok s
  else
    match s.psu_ with
    | none => Res.fault Fault.nullDeref
    | some p =>
      let s1 := (s.psuSetCurrent hw (p.currFilt_ * 0.90)).2
      let r : Res Solar :=
        if s1.state_ = States.collapsemode ∨ s1.hasCollapsed = true then
          restoreFromCollapse hw (s1.psu.currFilt_ * 0.75) s1
        else Res.ok s1
      match r with
      | Res.fault f => Res.fault f
      | Res.ok s2 =>
        let s3 := s2.setState States.sweeping
        let s4 := if !s3.psu.outEn_ then s3.psuEnableOutput hw true else s3
        Res.ok { s4 with lastAutoSweep_ := s4.millis % U32 }

/-- One iteration of the max search of `doSweepStep`: the new `maxIndex`. -/
def maxStep (pts : List SPoint) (maxIndex i : Nat) : Nat :=
  if !(pts.getD i default).collapsed ∧ (pts.getD i default).p > (pts.getD maxIndex default).p
  then i else maxIndex

/-- The max search of `doSweepStep`:
`maxIndex = 0; for (i = 0; i < size; i++) if (!pts[i].collapsed && pts[i].p() > pts[maxIndex].p()) maxIndex = i;`. -/
def maxSearch (pts : List SPoint) : Nat :=
  (List.range pts.length).foldl (maxStep pts) 0

/-- Number of collapsed points in the buffer. -/
def collapsedPoints (pts : List SPoint) : Nat := pts.countP (fun q => q.collapsed)

/-- Number of non-collapsed points in the buffer. -/
def nonCollapsedPoints (pts : List SPoint) : Nat := pts.countP (fun q => !q.collapsed)

/-- The end of `doSweepStep` (from `if (psu_->limitCurr_ >= currentCap_)` on): the
early exits and the ramp. `sweepPoints_.back()` of an empty vector is a fault. -/
def sweepTail (hw : Hardware) (s : Solar) : Res Solar :=
  if s.psu.limitCurr_ ≥ s.currentCap_ then
    match s.sweepPoints_.getLast? with
    | none => Res.fault Fault.emptyBack
    | some b =>
      Res.ok (applyAdjustment hw s.currentCap_
        (({ s with setpoint_ := b.input }).setState States.mppt))
  else if s.psu.isCV then Res.ok (s.setState States.full_cv)
  else
    Res.ok (applyAdjustment hw
      (min (s.psu.limitCurr_ + s.inVolt_ * 0.001) (s.currentCap_ + 0.001)) s)

/-- The "sweep finished" block of `doSweepStep` for a buffer with a non-collapsed
point, up to and including `sweepPoints_.clear()`. -/
def sweepConclude (hw : Hardware) (s : Solar) : Res Solar :=
  let pts := s.sweepPoints_
  let maxIndex := maxSearch pts
  let collapsePoint := pts.getLastD default
  let r : Res Solar :=
    if (pts.getD maxIndex default).p < collapsePoint.p then
      let s1 := s.setState States.collapsemode
      let s2 := (s1.psuSetCurrent hw (if s1.currentCap_ > 0 then s1.currentCap_ else 10)).2
      Res.ok { s2 with
        nextAutoSweep_ := addU32 s2.millis (toU32 (Int.tdiv (wrapInt (s2.autoSweep_ * 1000)) 3)),
        setpoint_ := collapsePoint.input }
    else
      let maxIndex2 : Nat := (max 0 ((maxIndex : Int) - 2)).toNat
      let s1 := s.setState States.mppt
      match restoreFromCollapse hw
          ((pts.getD maxIndex2 default).i * (0.98 - 0.04 * ((min s1.getCollapses 8 : Int) : ℚ))) s1 with
      | Res.fault f => Res.fault f
      | Res.ok s2 => Res.ok { s2 with setpoint_ := (pts.getD maxIndex2 default).input }
  match r with
  | Res.fault f => Res.fault f
  | Res.ok s3 => Res.ok { s3 with nextSolarAdjust_ := addU32 s3.millis 1000, sweepPoints_ := [] }

/-- `Solar::doSweepStep()`. -/
def doSweepStep (hw : Hardware) (s : Solar) : Res Solar :=
  match s.psu_ with
  | none => Res.ok s
  | some p =>
    if !p.outEn_ then Res.ok (s.setState States.mppt)
    else
      let s1 := (s.updatePSU hw).2
      let isCollapsed := s1.hasCollapsed
      let s2 : Solar := { s1 with sweepPoints_ := s1.sweepPoints_ ++
        [{ v := s1.psu.outVolt_, i := s1.psu.outCurr_, input := s1.inVolt_, collapsed := isCollapsed }] }
      if isCollapsed = true ∧ collapsedPoints s2.sweepPoints_ ≥ 2 then
        if nonCollapsedPoints s2.sweepPoints_ = 0 then
          match restoreFromCollapse hw (s2.psu.currFilt_ * 0.5) s2 with
          | Res.fault f => Res.fault f
          | Res.ok s3 => Res.ok (s3.setState States.mppt)
        else
          match sweepConclude hw s2 with
          | Res.fault f => Res.fault f
          | Res.ok s3 => sweepTail hw s3
      else sweepTail hw s2

/-- `Solar::doMeasure()`: the returned desired current and the new controller. -/
def doMeasure (hw : Hardware) (s : Solar) : Res (ℚ × Solar) :=
  let s1 := s.measureInvolt hw
  if s1.state_ = States.sweeping then
    match doSweepStep hw s1 with
    | Res.fault f => Res.fault f
    | Res.ok s2 => Res.ok (if s2.psu_.isSome then s2.psu.limitCurr_ else 0, s2)
  else if s1.setpoint_ > 0 ∧ s1.psu_.isSome ∧ s1.psu.outEn_ = true then
    let error : ℚ := s1.inVolt_ - s1.setpoint_
    let dcurr : ℚ := constrain (error * s1.pgain_) (-s1.ramplimit_ * 2) s1.ramplimit_
    if error > 0.3 ∨ -error > 0.2 then
      let s2 : Solar :=
        if error < 0.6 ∧ s1.state_ = States.mppt then { s1 with nextSolarAdjust_ := s1.millis % U32 }
        else s1
      Res.ok (min (s2.psu.limitCurr_ + dcurr) s2.currentCap_, s2)
    else Res.ok (s1.psu.limitCurr_, s1)
  else Res.ok (if s1.psu_.isSome then s1.psu.limitCurr_ else 0, s1)

/-- `Solar::doUpdateState()`. -/
def doUpdateState (s : Solar) : Solar :=
  match s.psu_ with
  | none => s.setState States.error
  | some p =>
    if s.state_ ≠ States.sweeping ∧ s.state_ ≠ States.collapsemode then
      let lastPSUsecs : Int := ((subU32 s.millis p.lastSuccess_ / 1000 : Nat) : Int)
      if p.outEn_ then
        if lastPSUsecs > 11 then s.setState States.error
        else if p.outCurr_ > s.currentCap_ * 0.95 then s.setState States.capped
        else if p.isCV then s.setState States.full_cv
        else s.setState States.mppt
      else
        if s.inVolt_ > 1 ∧ lastPSUsecs > 120 then s.setState States.error
        else s.setState States.off
    else s

/-- The `try` block of `doAdjust` without its last statement: the new controller
and whether a `Backoff` was thrown. -/
def adjustTry (hw : Hardware) (desired : ℚ) (now : Nat) (s : Solar) : Res (Bool × Solar) :=
  if s.state_ = States.error then
    if s.psu_.isSome ∧ subU32 now s.psu.lastSuccess_ < 30000 then
      Res.ok (true, ((s.psuEnableOutput hw false).psuSetCurrent hw 0).2)
    else Res.ok (false, s)
  else if s.setpoint_ > 0 ∧ s.state_ ≠ States.sweeping then
    let r : Res (Bool × Solar) :=
      if s.hasCollapsed = true ∧ s.state_ ≠ States.collapsemode then
        match restoreFromCollapse hw (s.psu.currFilt_ * 0.95)
            { s with collapses_ := s.collapses_ ++ [now] } with
        | Res.fault f => Res.fault f
        | Res.ok s1 => Res.ok (false, s1)
      else if s.psu_.isSome ∧ s.psu.outEn_ = false then
        if s.inVolt_ < s.psu.outVolt_ ∨ s.psu.outVolt_ < 0.1 then Res.ok (true, s)
        else if s.psu.outVolt_ > s.psu.limitVolt_ ∨
            (s.psu.outVolt_ < s.psu.limitVolt_ * 0.60 ∧ s.psu.outVolt_ > 1) then Res.ok (true, s)
        else Res.ok (false, s.psuEnableOutput hw true)
      else Res.ok (false, s)
    match r with
    | Res.fault f => Res.fault f
    | Res.ok (true, s1) => Res.ok (true, s1)
    | Res.ok (false, s1) =>
      if s1.psu_.isSome ∧ s1.psu.outEn_ = true ∧ s1.state_ ≠ States.collapsemode then
        Res.ok (false, applyAdjustment hw desired s1)
      else Res.ok (false, s1)
  else Res.ok (false, s)

/-- The pruning step at the end of `doAdjust`:
`if (collapses_.size() && (millis() - collapses_.front()) > (5 * 60000)) collapses_.pop_front();`
on the log `log` at clock value `t`. -/
def pruneCollapses (t : Nat) (log : List Nat) : List Nat :=
  match log with
  | [] => []
  | front :: rest => if subU32 t front > 5 * 60000 then rest else front :: rest

/-- `Solar::doAdjust(desired)`. -/
def doAdjust (hw : Hardware) (desired : ℚ) (s : Solar) : Res Solar :=
  match adjustTry hw desired (s.millis % U32) s with
  | Res.fault f => Res.fault f
  | Res.ok (thrown, s1) =>
    let s2 : Solar :=
      if thrown then { s1 with backoffLevel_ := min (s1.backoffLevel_ + 1) 8 }
      else { s1 with backoffLevel_ := max (s1.backoffLevel_ - 1) 0 }
    Res.ok { s2 with collapses_ := pruneCollapses s2.millis s2.collapses_ }

end Solar

/-! ## The low-voltage protection and the due checks of `loop` -/

/-- Modelled from the spec: the class `LowVoltageProtect` is declared in the absent
`solar.h`; the fields are the ones `solar.cpp` uses. `level` is the electrical
level of the pin `pin_`: `digitalWrite` sets it and `digitalRead` returns it. -/
structure LowVoltageProtect where
  pin_ : Int
  invert_ : Bool
  threshold_ : ℚ
  threshRecovery_ : ℚ
  nextCheck_ : Nat
  level : Bool
  deriving DecidableEq, Repr

/-- `LowVoltageProtect::trigger(trigger)`: `digitalWrite(pin_, !(trigger ^ invert_))`. -/
def LowVoltageProtect.trigger (trigger : Bool) (lv : LowVoltageProtect) : LowVoltageProtect :=
  { lv with level := !(xor trigger lv.invert_) }

/-- `LowVoltageProtect::isTriggered()`: `!(digitalRead(pin_) ^ invert_)`. -/
def LowVoltageProtect.isTriggered (lv : LowVoltageProtect) : Bool :=
  !(xor lv.level lv.invert_)

/-- The low-voltage block of `Solar::loop` (`if (lvProtect_ && now > lvProtect_->nextCheck_)`),
with `now` the value `loop` read from `millis()` on entry; sending the logs is
output only. -/
def Solar.loopLowVoltage (now : Nat) (s : Solar) (lvProtect_ : Option LowVoltageProtect) :
    Solar × Option LowVoltageProtect :=
  match lvProtect_ with
  | none => (s, none)
  | some lv =>
    if now > lv.nextCheck_ then
      if lv.isTriggered = false ∧ s.psu_.isSome ∧ s.psu.outVolt_ < lv.threshold_ then
        (s.delay 200, some { lv.trigger true with nextCheck_ := addU32 now (5 * 1000) })
      else if lv.isTriggered = true ∧ s.psu_.isSome ∧ s.psu.outVolt_ > lv.threshRecovery_ then
        (s, some { lv.trigger false with nextCheck_ := addU32 now 10000 })
      else (s, some lv)
    else (s, some lv)

/-- The print block of `Solar::loop`,
`if (now > nextPrint_) { printStatus(); nextPrint_ = now + printPeriod_; }`, on the
`uint32_t` values `now` and `nextPrint_`: whether the block ran, and the new
`nextPrint_`. The measurement and adjustment blocks test and reschedule the same way. -/
def loopPrint (now : Nat) (printPeriod_ : Int) (nextPrint_ : Nat) : Bool × Nat :=
  if now > nextPrint_ then (true, addU32 now (toU32 printPeriod_)) else (false, nextPrint_)

/-- Number of `setCurrent` commands in a list of PSU commands. -/
def setCurrentCount (cmds : List PsuCmd) : Nat :=
  cmds.countP (fun c => match c with
    | PsuCmd.setCurrent _ => true
    | _ => false)

/-! ## Concrete inputs -/

/-- A simulated PSU: every command succeeds, `setCurrent` stores the limit,
`enableOutput` stores the flag, and the reported input voltage is `hidden` volts. -/
def simHw : Hardware where
  setCurrent := fun c p => (true, { p with limitCurr_ := c })
  enableOutput := fun b p => { p with outEn_ := b }
  doUpdate := fun p => (true, p)
  readCurrent := fun p => p
  getInputVolt := fun _ p => (true, (p.hidden : ℚ), p)
  analogRead := fun _ _ => 0

/-- A PSU record: output enabled, 12 V / 1 A out, limit 1 A, 14 V limit, reporting 20 V in. -/
def simPsu : PowerSupply where
  outEn_ := true
  outVolt_ := 12
  outCurr_ := 1
  limitCurr_ := 1
  limitVolt_ := 14
  currFilt_ := 1
  lastSuccess_ := 0
  cv := false
  clps := false
  drok := false
  hidden := 20

/-- The controller after construction (`state_ = off`, empty buffer and log, no PSU),
with a setpoint of 18 V, a current cap of 5 A and a restore threshold of 0 V. -/
def Solar.initial : Solar where
  state_ := States.off
  psu_ := none
  sweepPoints_ := []
  collapses_ := []
  backoffLevel_ := 0
  setpoint_ := 18
  inVolt_ := 20
  pgain_ := 0.005
  ramplimit_ := 0.05
  currentCap_ := 5
  offThreshold_ := 0
  vadjust_ := 116.5
  autoSweep_ := 600
  adjustPeriod_ := 2000
  pinInvolt_ := 32
  nextSolarAdjust_ := 1000
  nextAutoSweep_ := 0
  lastAutoSweep_ := 0
  millis := 0
  cmds := []

/-- Two samples of a running sweep: a collapsed one of 10 W, then a non-collapsed one of 5 W. -/
def ptsA : List SPoint :=
  [{ v := 10, i := 1, input := 13, collapsed := true },
   { v := 5, i := 1, input := 20, collapsed := false }]

/-- The sample a PSU at 8 V / 1 A reporting collapse adds while the input is at 13 V. -/
def ptC : SPoint := { v := 8, i := 1, input := 13, collapsed := true }

/-- A sweep in progress holding `ptsA`, the PSU now at 8 V / 1 A and reporting collapse. -/
def sweepA : Solar :=
  { Solar.initial with
      state_ := States.sweeping
      inVolt_ := 13
      sweepPoints_ := ptsA
      psu_ := some { simPsu with outVolt_ := 8, clps := true } }

/-- A sweep in progress holding a non-collapsed sample of 5 W and a collapsed one of
8 W, the PSU still at 8 V / 1 A and reporting collapse. -/
def sweepB : Solar :=
  { Solar.initial with
      state_ := States.sweeping
      inVolt_ := 13
      sweepPoints_ := [{ v := 5, i := 1, input := 20, collapsed := false }, ptC]
      psu_ := some { simPsu with outVolt_ := 8, clps := true } }

/-- The controller after construction with a PSU whose filtered current is 6 A
(the current cap being 5 A). -/
def capBoot : Solar :=
  { Solar.initial with psu_ := some { simPsu with currFilt_ := 6 } }

/-- The controller `capBoot` after `startSweep`. -/
def capSweeping : Solar :=
  { Solar.initial with
      state_ := States.sweeping
      psu_ := some { simPsu with currFilt_ := 6, limitCurr_ := 5.4 }
      cmds := [PsuCmd.setCurrent 5.4] }

/-- The controller `capSweeping` after one `doSweepStep`. -/
def capDone : Solar :=
  { Solar.initial with
      state_ := States.mppt
      setpoint_ := 20
      sweepPoints_ := [{ v := 12, i := 1, input := 20, collapsed := false }]
      psu_ := some { simPsu with currFilt_ := 6, limitCurr_ := 5 }
      millis := 50
      cmds := [PsuCmd.setCurrent 5.4, PsuCmd.doUpdate, PsuCmd.setCurrent 5, PsuCmd.readCurrent] }

/-- A PSU link that is down: every command fails and leaves the device record as it is. -/
def deafHw : Hardware where
  setCurrent := fun _ p => (false, p)
  enableOutput := fun _ p => p
  doUpdate := fun p => (false, p)
  readCurrent := fun p => p
  getInputVolt := fun v p => (false, v, p)
  analogRead := fun _ _ => 0

/-- A low-voltage protection with trigger 12.0 V and recovery 12.96 V, inversion
flag `inv`, not triggered, first check due after time 0. -/
def lvNew (inv : Bool) : LowVoltageProtect where
  pin_ := 22
  invert_ := inv
  threshold_ := 12
  threshRecovery_ := 12.96
  nextCheck_ := 0
  level := !(xor false inv)

/-- One pass of the low-voltage block at time `now` with the PSU output at `v` volts:
the protection afterwards. -/
def lvTick (now : Nat) (v : ℚ) (lv : LowVoltageProtect) : LowVoltageProtect :=
  ((Solar.loopLowVoltage now
    { Solar.initial with psu_ := some { simPsu with outVolt_ := v } } (some lv)).2).getD lv

/-- A sweep in progress holding two non-collapsed samples (6 W, 7 W) and a collapsed
one of 9 W, the PSU at 9 V / 1 A and reporting collapse, the cap at 5 A. -/
def sweepD : Solar :=
  { Solar.initial with
      state_ := States.sweeping
      inVolt_ := 12
      sweepPoints_ := [{ v := 6, i := 1, input := 20, collapsed := false },
                       { v := 7, i := 1, input := 19, collapsed := false },
                       { v := 9, i := 1, input := 12, collapsed := true }]
      psu_ := some { simPsu with outVolt_ := 9, clps := true } }

/-- The controllers reachable from `s0` by `startSweep`, `doSweepStep`,
`doUpdateState` and `doAdjust` calls that return. -/
inductive Reachable (hw : Hardware) (s0 : Solar) : Solar → Prop where
  | start : Reachable hw s0 s0
  | startSweep (s s2 : Solar) : Reachable hw s0 s → Solar.startSweep hw s = Res.ok s2 →
      Reachable hw s0 s2
  | doSweepStep (s s2 : Solar) : Reachable hw s0 s → Solar.doSweepStep hw s = Res.ok s2 →
      Reachable hw s0 s2
  | doUpdateState (s : Solar) : Reachable hw s0 s → Reachable hw s0 s.doUpdateState
  | doAdjust (d : ℚ) (s s2 : Solar) : Reachable hw s0 s → Solar.doAdjust hw d s = Res.ok s2 →
      Reachable hw s0 s2

/-- A Drok PSU reporting collapse, output enabled at 100 V, with 111 V at the input. -/
def drok111 : Solar :=
  { Solar.initial with
      inVolt_ := 111
      psu_ := some { simPsu with outVolt_ := 100, clps := true, drok := true } }

/-! ## Statements taken from the specification, for comparison with the code -/

/-- The condition of the spec (§4.3) for an enabled output with a non-zero voltage,
in exact arithmetic: the PSU reports collapse and (the device is not a Drok, or
input < 1.11 x output, or (input - output) / output < 0.05). -/
def specHasCollapsed (drok flag : Bool) (inVolt outVolt : ℚ) : Bool :=
  flag && (!drok || decide (inVolt < 1.11 * outVolt) ||
    decide ((inVolt - outVolt) / outVolt < 0.05))

/-- The spec's `computeInterval(basePeriod, level)`: `basePeriod` when `level <= 0`,
otherwise `basePeriod * (level² + 2) / 2`, multiplying first. -/
def specComputeInterval (basePeriod level : Int) : Int :=
  if level ≤ 0 then basePeriod else Int.tdiv (basePeriod * (level * level + 2)) 2

/-- The transition table of the spec (§4.6) for a PSU that is present and a prior
state other than `sweeping` and `collapsemode`, as a function of the inputs:
`silentMs` is the time since the last successful PSU communication. -/
def specUpdateState (outEn : Bool) (silentMs : Nat) (outCurr cap : ℚ) (cv : Bool)
    (inVolt : ℚ) : States :=
  if outEn then
    if silentMs > 11000 then States.error
    else if outCurr ≥ cap * 0.95 then States.capped
    else if cv then States.full_cv
    else States.mppt
  else
    if inVolt > 1 ∧ silentMs > 120000 then States.error
    else States.off

/-- The table that `doUpdateState` implements: silence is counted in whole
seconds and the cap comparison is strict. -/
def codeUpdateState (outEn : Bool) (silentMs : Nat) (outCurr cap : ℚ) (cv : Bool)
    (inVolt : ℚ) : States :=
  if outEn then
    if silentMs / 1000 > 11 then States.error
    else if outCurr > cap * 0.95 then States.capped
    else if cv then States.full_cv
    else States.mppt
  else
    if inVolt > 1 ∧ silentMs / 1000 > 120 then States.error
    else States.off

/-- The spec's "signals backoff" (§4.6, `doAdjust` steps 1 and 2): in `error`
state with a PSU that communicated within the last 30 s; or, outside `error`,
with a setpoint configured and not sweeping, the output is disabled and enabling
it is refused (input below output, output below 0.1, output above the PSU
voltage limit, or output below 60% of the limit while above 1). -/
def specSignalsBackoff (s : Solar) : Bool :=
  match s.psu_ with
  | none => false
  | some p =>
    (decide (s.state_ = States.error) && decide (subU32 s.millis p.lastSuccess_ < 30000)) ||
    (decide (s.state_ ≠ States.error) && decide (s.setpoint_ > 0) &&
      decide (s.state_ ≠ States.sweeping) && !p.outEn_ &&
      (decide (s.inVolt_ < p.outVolt_) || decide (p.outVolt_ < 0.1) ||
        decide (p.outVolt_ > p.limitVolt_) ||
        (decide (p.outVolt_ < p.limitVolt_ * 0.60) && decide (p.outVolt_ > 1))))

/-- What the PSU and measurement helpers leave alone: state, sweep buffer,
collapse log, backoff level, and whether a PSU is configured. -/
def Solar.Frame (s s2 : Solar) : Prop :=
  s2.state_ = s.state_ ∧ s2.sweepPoints_ = s.sweepPoints_ ∧ s2.collapses_ = s.collapses_ ∧
  s2.backoffLevel_ = s.backoffLevel_ ∧ s2.psu_.isSome = s.psu_.isSome

/-! ## Theorems -/

/-! ### Machine arithmetic -/

theorem wrapInt_of_inRange (x : Int) (h1 : INT_MIN ≤ x) (h2 : x ≤ INT_MAX) : wrapInt x = x := by
  unfold wrapInt
  unfold INT_MIN at h1
  unfold INT_MAX at h2
  omega

/-- The multiplier `(L*L + 2) / 2` for the levels 0..8. -/
theorem backoff_multiplier_cases (L : Int) (h0 : 0 ≤ L) (h8 : L ≤ 8) :
    (L = 0 ∨ L = 1 ∨ L = 2 ∨ L = 3 ∨ L = 4 ∨ L = 5 ∨ L = 6 ∨ L = 7 ∨ L = 8) := by
  omega

/-- Without overflow `getBackoff` is `((L*L + 2) / 2) * period` for a positive level. -/
theorem getBackoff_pos (s : Solar) (P : Int) (h0 : 0 < s.backoffLevel_)
    (hL : s.backoffLevel_ ≤ 46340)
    (h1 : INT_MIN ≤ (s.backoffLevel_ * s.backoffLevel_ + 2) / 2 * P)
    (h2 : (s.backoffLevel_ * s.backoffLevel_ + 2) / 2 * P ≤ INT_MAX) :
    s.getBackoff P = (s.backoffLevel_ * s.backoffLevel_ + 2) / 2 * P := by
  have hsq : s.backoffLevel_ * s.backoffLevel_ ≤ 46340 * 46340 :=
    Int.mul_le_mul hL hL (by omega) (by omega)
  have hsq0 : 0 ≤ s.backoffLevel_ * s.backoffLevel_ := Int.mul_nonneg (by omega) (by omega)
  have w1 : wrapInt (s.backoffLevel_ * s.backoffLevel_) = s.backoffLevel_ * s.backoffLevel_ :=
    wrapInt_of_inRange _ (by unfold INT_MIN; omega) (by unfold INT_MAX; omega)
  have w2 : wrapInt (s.backoffLevel_ * s.backoffLevel_ + 2) = s.backoffLevel_ * s.backoffLevel_ + 2 :=
    wrapInt_of_inRange _ (by unfold INT_MIN; omega) (by unfold INT_MAX; omega)
  have hd : Int.tdiv (s.backoffLevel_ * s.backoffLevel_ + 2) 2
      = (s.backoffLevel_ * s.backoffLevel_ + 2) / 2 :=
    Int.tdiv_eq_ediv (by omega) (by omega)
  unfold Solar.getBackoff
  rw [if_neg (by omega), w1, w2, hd, wrapInt_of_inRange _ h1 h2]

/-- C1, as amended: `getBackoff(P)` returns `P` when the level is `<= 0` and
otherwise `((L*L + 2) / 2) * P`, dividing (with truncation) before multiplying,
as long as the 32-bit `int` range is not left; so level 1 yields `P`
(1000 for `P = 1000`), level 2 yields `3 * P` and level 8 yields `33 * P`. -/
theorem getBackoff_divides_before_multiplying (s : Solar) (P : Int)
    (hL : s.backoffLevel_ ≤ 46340)
    (hr : 0 < s.backoffLevel_ →
      INT_MIN ≤ (s.backoffLevel_ * s.backoffLevel_ + 2) / 2 * P ∧
      (s.backoffLevel_ * s.backoffLevel_ + 2) / 2 * P ≤ INT_MAX) :
    s.getBackoff P
        = (if s.backoffLevel_ ≤ 0 then P
           else (s.backoffLevel_ * s.backoffLevel_ + 2) / 2 * P) ∧
      (s.backoffLevel_ = 1 → s.getBackoff P = P) ∧
      (s.backoffLevel_ = 2 → s.getBackoff P = 3 * P) ∧
      (s.backoffLevel_ = 8 → s.getBackoff P = 33 * P) := by
  have main : s.getBackoff P
        = (if s.backoffLevel_ ≤ 0 then P
           else (s.backoffLevel_ * s.backoffLevel_ + 2) / 2 * P) := by
    by_cases h : s.backoffLevel_ ≤ 0
    · rw [if_pos h]
      unfold Solar.getBackoff
      rw [if_pos h]
    · rw [if_neg h]
      have hp : 0 < s.backoffLevel_ := by omega
      exact getBackoff_pos s P hp hL (hr hp).1 (hr hp).2
  refine ⟨main, ?_, ?_, ?_⟩
  · intro h1
    rw [main, h1]
    norm_num
  · intro h2
    rw [main, h2]
    norm_num
  · intro h8
    rw [main, h8]
    norm_num

/-- C1, witness: level 1 and period 1000. -/
theorem getBackoff_divides_before_multiplying_witness :
    ({ Solar.initial with backoffLevel_ := 1 } : Solar).getBackoff 1000 = 1000 :=
  ((getBackoff_divides_before_multiplying { Solar.initial with backoffLevel_ := 1 } 1000
    (by decide) (by intro _; decide)).2.1 rfl)

/-- C1, counterexample: at level 1 and period 1000 the code returns 1000, the
spec's formula gives 1500. -/
theorem getBackoff_level_one_counterexample :
    ({ Solar.initial with backoffLevel_ := 1 } : Solar).getBackoff 1000 = 1000 ∧
    specComputeInterval 1000 1 = 1500 ∧
    ({ Solar.initial with backoffLevel_ := 1 } : Solar).getBackoff 1000
      ≠ specComputeInterval 1000 1 := by
  decide

/-- C2: for a non-negative period `P` with `33 * P` within the `int` range and
levels `0 <= a <= b <= 8`: level 0 gives `P`, level `a` gives at most what level
`b` gives, and level 8 gives `33 * P`. -/
theorem getBackoff_monotone (s : Solar) (P a b : Int) (hP : 0 ≤ P) (hmax : 33 * P ≤ INT_MAX)
    (ha : 0 ≤ a) (hab : a ≤ b) (hb : b ≤ 8) :
    ({ s with backoffLevel_ := 0 } : Solar).getBackoff P = P ∧
    ({ s with backoffLevel_ := a } : Solar).getBackoff P
      ≤ ({ s with backoffLevel_ := b } : Solar).getBackoff P ∧
    ({ s with backoffLevel_ := 8 } : Solar).getBackoff P = 33 * P := by
  have key : ∀ L : Int, 0 ≤ L → L ≤ 8 →
      ({ s with backoffLevel_ := L } : Solar).getBackoff P
        = (if L ≤ 0 then P else (L * L + 2) / 2 * P) := by
    intro L h0 h8
    have hm : (L * L + 2) / 2 ≤ 33 := by
      rcases backoff_multiplier_cases L h0 h8 with h | h | h | h | h | h | h | h | h <;>
        subst h <;> decide
    have hm0 : 0 ≤ (L * L + 2) / 2 := by
      rcases backoff_multiplier_cases L h0 h8 with h | h | h | h | h | h | h | h | h <;>
        subst h <;> decide
    have hprod : (L * L + 2) / 2 * P ≤ 33 * P := Int.mul_le_mul_of_nonneg_right hm hP
    have hprod0 : 0 ≤ (L * L + 2) / 2 * P := Int.mul_nonneg hm0 hP
    exact (getBackoff_divides_before_multiplying { s with backoffLevel_ := L } P
      (by show L ≤ 46340; omega)
      (by
        intro _
        show INT_MIN ≤ (L * L + 2) / 2 * P ∧ (L * L + 2) / 2 * P ≤ INT_MAX
        unfold INT_MIN
        constructor
        · omega
        · omega)).1
  refine ⟨?_, ?_, ?_⟩
  · rw [key 0 (by omega) (by omega)]
    simp
  · rw [key a ha (by omega), key b (by omega) hb]
    rcases backoff_multiplier_cases a ha (by omega) with h | h | h | h | h | h | h | h | h <;>
      rcases backoff_multiplier_cases b (by omega) hb with h2 | h2 | h2 | h2 | h2 | h2 | h2 | h2 | h2 <;>
      subst h <;> subst h2 <;> norm_num <;> omega
  · rw [key 8 (by omega) (by omega)]
    norm_num

/-- C2, witness: period 1000, levels 3 and 5. -/
theorem getBackoff_monotone_witness :
    ({ Solar.initial with backoffLevel_ := 0 } : Solar).getBackoff 1000 = 1000 ∧
    ({ Solar.initial with backoffLevel_ := 3 } : Solar).getBackoff 1000
      ≤ ({ Solar.initial with backoffLevel_ := 5 } : Solar).getBackoff 1000 ∧
    ({ Solar.initial with backoffLevel_ := 8 } : Solar).getBackoff 1000 = 33 * 1000 :=
  getBackoff_monotone Solar.initial 1000 3 5 (by decide) (by decide) (by decide) (by decide)
    (by decide)

/-! ### Collapse detection -/

/-- A value strictly within one half of the integer `n` rounds to `n`. -/
theorem roundHalfEven_eq (q : ℚ) (n : Int) (h1 : (n : ℚ) - 1 / 2 < q)
    (h2 : q < (n : ℚ) + 1 / 2) : roundHalfEven q = n := by
  unfold roundHalfEven
  have hf : ⌊q⌋ = n ∨ ⌊q⌋ = n - 1 := by
    by_cases h : (n : ℚ) ≤ q
    · left
      rw [Int.floor_eq_iff]
      constructor
      · exact h
      · linarith
    · right
      rw [Int.floor_eq_iff]
      push_cast
      constructor
      · linarith
      · push_neg at h
        linarith
  rcases hf with hf | hf
  · rw [hf]
    have : q - (n : ℚ) < 1 / 2 := by linarith
    rw [if_pos this]
  · rw [hf]
    have h3 : ¬ q - ((n - 1 : Int) : ℚ) < 1 / 2 := by
      push_cast
      linarith
    have h4 : q - ((n - 1 : Int) : ℚ) > 1 / 2 := by
      push_cast
      linarith
    rw [if_neg h3, if_pos h4]
    omega

/-- Rounding of a value `x` with `2^e <= |x| < 2^(e+1)`, `e` a normal exponent, whose
scaled value lies strictly within one half of the integer `n`. -/
theorem roundFmt_num (prec : Nat) (emin emax : Int) (x : ℚ) (e n : Int) (hx : x ≠ 0)
    (hlo : (2 : ℚ) ^ e ≤ |x|) (hhi : |x| < (2 : ℚ) ^ (e + 1)) (hemin : emin ≤ e)
    (h1 : (n : ℚ) - 1 / 2 < x / (2 : ℚ) ^ (e - ((prec : Int) - 1)))
    (h2 : x / (2 : ℚ) ^ (e - ((prec : Int) - 1)) < (n : ℚ) + 1 / 2)
    (hmax1 : (n : ℚ) * (2 : ℚ) ^ (e - ((prec : Int) - 1)) < (2 : ℚ) ^ (emax + 1))
    (hmax2 : -(2 : ℚ) ^ (emax + 1) < (n : ℚ) * (2 : ℚ) ^ (e - ((prec : Int) - 1))) :
    roundFmt prec emin emax x = FVal.num ((n : ℚ) * (2 : ℚ) ^ (e - ((prec : Int) - 1))) := by
  have hpos : 0 < |x| := abs_pos.mpr hx
  have hlog : Int.log 2 |x| = e := by
    apply le_antisymm
    · have h := (Int.lt_zpow_iff_log_lt (by norm_num : 1 < 2) hpos).mp
        (by simpa using hhi : |x| < ((2 : ℕ) : ℚ) ^ (e + 1))
      omega
    · exact (Int.zpow_le_iff_le_log (by norm_num : 1 < 2) hpos).mp
        (by simpa using hlo : ((2 : ℕ) : ℚ) ^ e ≤ |x|)
  unfold roundFmt
  rw [if_neg hx]
  simp only [hlog, max_eq_left hemin, roundHalfEven_eq _ n h1 h2]
  rw [if_neg (not_le.mpr hmax1), if_neg (not_le.mpr hmax2)]

/-- The `double` literal `1.11` is `double111`. -/
theorem roundF64_literal_111 : roundF64 1.11 = FVal.num double111 := by
  have h := roundFmt_num 53 (-1022) 1023 1.11 0 4998995586381251 (by norm_num)
    (by norm_num [abs_of_pos]) (by norm_num [abs_of_pos]) (by norm_num) (by norm_num)
    (by norm_num) (by norm_num) (by norm_num)
  unfold roundF64
  rw [h]
  norm_num [double111]

/-- The `double` literal `0.05` is `double005`. -/
theorem roundF64_literal_005 : roundF64 0.05 = FVal.num double005 := by
  have h := roundFmt_num 53 (-1022) 1023 0.05 (-5) 7205759403792794 (by norm_num)
    (by norm_num [abs_of_pos]) (by norm_num [abs_of_pos]) (by norm_num) (by norm_num)
    (by norm_num) (by norm_num) (by norm_num)
  unfold roundF64
  rw [h]
  norm_num [double005]

/-- The `double` product `100 * 1.11` is `111 + 2^-46`. -/
theorem mulF64_100 : mulF64 100 double111 = FVal.num (7810930603720705 / 70368744177664) := by
  have h := roundFmt_num 53 (-1022) 1023 (100 * double111) 6 7810930603720705
    (by norm_num [double111]) (by norm_num [double111, abs_of_pos])
    (by norm_num [double111, abs_of_pos]) (by norm_num) (by norm_num [double111])
    (by norm_num [double111]) (by norm_num) (by norm_num)
  unfold mulF64 roundF64
  rw [h]
  norm_num

/-- The `double` product `12.5 * 1.11` is `13.875 + 2^-49`. -/
theorem mulF64_12_5 :
    mulF64 12.5 double111 = FVal.num (7810930603720705 / 562949953421312) := by
  have h := roundFmt_num 53 (-1022) 1023 (12.5 * double111) 3 7810930603720705
    (by norm_num [double111]) (by norm_num [double111, abs_of_pos])
    (by norm_num [double111, abs_of_pos]) (by norm_num) (by norm_num [double111])
    (by norm_num [double111]) (by norm_num) (by norm_num)
  unfold mulF64 roundF64
  rw [h]
  norm_num

/-- With a Drok reporting collapse and the output enabled, the first voltage test
alone decides for collapse. -/
theorem hasCollapsed_of_simple (s : Solar) (p : PowerSupply) (hp : s.psu_ = some p)
    (hen : p.outEn_ = true) (hc : p.isCollapsed = true)
    (hs : (mulF64 p.outVolt_ double111).gtNum s.inVolt_ = true) : s.hasCollapsed = true := by
  simp [Solar.hasCollapsed, hp, hen, hc, hs]

/-- C10, as amended: `hasCollapsed` is false without a PSU and with the output
disabled; it is true only if the PSU reports collapse; with output enabled and a
non-zero output voltage it is true exactly when the PSU reports collapse and (the
device is not a Drok, or input < output x 1.11 as the code computes it, a `double`
product, or (input - output) / output as the code computes it, in `float`, is below
the `double` 0.05). -/
theorem hasCollapsed_as_computed (s : Solar) :
    (s.psu_ = none → s.hasCollapsed = false) ∧
    (∀ p, s.psu_ = some p → p.outEn_ = false → s.hasCollapsed = false) ∧
    (s.hasCollapsed = true → ∃ p, s.psu_ = some p ∧ p.isCollapsed = true) ∧
    (∀ p, s.psu_ = some p → p.outEn_ = true → p.outVolt_ ≠ 0 →
      (s.hasCollapsed = true ↔
        (p.isCollapsed = true ∧
          (p.isDrok = false ∨ (mulF64 p.outVolt_ double111).gtNum s.inVolt_ = true ∨
            (divF32 (subF32 s.inVolt_ p.outVolt_) p.outVolt_).ltNum double005 = true)))) := by
  refine ⟨?_, ?_, ?_, ?_⟩
  · intro h
    simp [Solar.hasCollapsed, h]
  · intro p h hen
    simp [Solar.hasCollapsed, h, hen]
  · intro h
    cases hp : s.psu_ with
    | none => simp [Solar.hasCollapsed, hp] at h
    | some p =>
      refine ⟨p, rfl, ?_⟩
      cases hc : p.isCollapsed with
      | true => rfl
      | false => simp [Solar.hasCollapsed, hp, hc] at h
  · intro p h hen _
    cases hc : p.isCollapsed <;> cases hd : p.isDrok <;>
      cases h1 : (mulF64 p.outVolt_ double111).gtNum s.inVolt_ <;>
      cases h2 : (divF32 (subF32 s.inVolt_ p.outVolt_) p.outVolt_).ltNum double005 <;>
      simp [Solar.hasCollapsed, h, hen, hc, hd, h1, h2]

/-- C10, witness: a Drok reporting collapse with 100 V out and 111 V in: the `double`
product 100 x 1.11 is `111 + 2^-46`, above the input. -/
theorem hasCollapsed_as_computed_witness : drok111.hasCollapsed = true :=
  ((hasCollapsed_as_computed drok111).2.2.2
      { simPsu with outVolt_ := 100, clps := true, drok := true } rfl rfl
      (by simp [simPsu])).2
    ⟨rfl, Or.inr (Or.inl (by
      show (mulF64 100 double111).gtNum 111 = true
      rw [mulF64_100]
      simp only [FVal.gtNum]
      norm_num))⟩

/-- C10, counterexample: with a Drok reporting collapse, output enabled, the code
returns true at 111 V in / 100 V out and at 13.875 V in / 12.5 V out, where the
condition of the claim, read in exact arithmetic, is false (111 < 1.11 x 100 fails
and (111 - 100) / 100 = 0.11). -/
theorem hasCollapsed_counterexample :
    (drok111.hasCollapsed = true ∧ specHasCollapsed true true 111 100 = false) ∧
    (({ Solar.initial with
          inVolt_ := 13.875
          psu_ := some { simPsu with outVolt_ := 12.5, clps := true, drok := true } } :
        Solar).hasCollapsed = true ∧
      specHasCollapsed true true 13.875 12.5 = false) := by
  refine ⟨⟨?_, ?_⟩, ?_, ?_⟩
  · apply hasCollapsed_of_simple drok111
      { simPsu with outVolt_ := 100, clps := true, drok := true } rfl rfl rfl
    show (mulF64 100 double111).gtNum 111 = true
    rw [mulF64_100]
    simp only [FVal.gtNum]
    norm_num
  · norm_num [specHasCollapsed]
  · apply hasCollapsed_of_simple _
      { simPsu with outVolt_ := 12.5, clps := true, drok := true } rfl rfl rfl
    show (mulF64 12.5 double111).gtNum 13.875 = true
    rw [mulF64_12_5]
    simp only [FVal.gtNum]
    norm_num
  · norm_num [specHasCollapsed]

/-! ### The state update -/

/-- With a PSU present and a prior state other than `sweeping` and `collapsemode`,
`doUpdateState` only assigns `state_`, and the value is `codeUpdateState` of the inputs. -/
theorem doUpdateState_eq (s : Solar) (p : PowerSupply) (hp : s.psu_ = some p)
    (h1 : s.state_ ≠ States.sweeping) (h2 : s.state_ ≠ States.collapsemode) :
    s.doUpdateState = s.setState
      (codeUpdateState p.outEn_ (subU32 s.millis p.lastSuccess_) p.outCurr_ s.currentCap_
        p.isCV s.inVolt_) := by
  unfold Solar.doUpdateState codeUpdateState
  simp only [hp]
  rw [if_pos ⟨h1, h2⟩]
  have e1 : (((subU32 s.millis p.lastSuccess_ / 1000 : Nat) : Int) > 11)
      = (subU32 s.millis p.lastSuccess_ / 1000 > 11) := propext (by omega)
  have e2 : (((subU32 s.millis p.lastSuccess_ / 1000 : Nat) : Int) > 120)
      = (subU32 s.millis p.lastSuccess_ / 1000 > 120) := propext (by omega)
  simp only [e1, e2]
  split_ifs <;> rfl

/-- In `sweeping` and `collapsemode` (PSU present) `doUpdateState` does nothing. -/
theorem doUpdateState_skip (s : Solar) (p : PowerSupply) (hp : s.psu_ = some p)
    (h : s.state_ = States.sweeping ∨ s.state_ = States.collapsemode) :
    s.doUpdateState = s := by
  unfold Solar.doUpdateState
  simp only [hp]
  rcases h with h | h <;> simp [h]

/-- C5, as amended: for a prior state other than `sweeping` and `collapsemode`
and a PSU present, the new state is a function of the inputs alone, namely:
output enabled: `error` if the whole seconds of PSU silence exceed 11, else
`capped` if the output current is strictly above 95% of the cap, else `full_cv`
in constant-voltage mode, else `mppt`; output disabled: `error` if input
voltage > 1 and the whole seconds of silence exceed 120, else `off`. -/
theorem doUpdateState_table (s : Solar) (p : PowerSupply) (hp : s.psu_ = some p)
    (h1 : s.state_ ≠ States.sweeping) (h2 : s.state_ ≠ States.collapsemode) :
    s.doUpdateState.state_ =
      codeUpdateState p.outEn_ (subU32 s.millis p.lastSuccess_) p.outCurr_ s.currentCap_
        p.isCV s.inVolt_ ∧
    (∀ st : States, st ≠ States.sweeping → st ≠ States.collapsemode →
      ({ s with state_ := st } : Solar).doUpdateState.state_ = s.doUpdateState.state_) := by
  constructor
  · rw [doUpdateState_eq s p hp h1 h2]
    rfl
  · intro st hs1 hs2
    rw [doUpdateState_eq s p hp h1 h2,
      doUpdateState_eq { s with state_ := st } p hp hs1 hs2]
    rfl

/-- C5, witness: from `off`, output enabled, 1 A of a 5 A cap, recent communication: `mppt`. -/
theorem doUpdateState_table_witness :
    ({ Solar.initial with psu_ := some simPsu } : Solar).doUpdateState.state_ = States.mppt := by
  have h := (doUpdateState_table { Solar.initial with psu_ := some simPsu } simPsu rfl
    (by decide) (by decide)).1
  rw [h]
  norm_num [codeUpdateState, simPsu, Solar.initial, subU32, U32, PowerSupply.isCV]

/-- C5, counterexample: (a) with the output current exactly 95% of the cap (19 A of
20 A) the code gives `mppt` where the table of the claim gives `capped`; (b) after
11.5 s of silence the code gives `mppt` where the claim gives `error`. -/
theorem doUpdateState_table_counterexample :
    (({ Solar.initial with
          currentCap_ := 20
          psu_ := some { simPsu with outCurr_ := 19 } } : Solar).doUpdateState.state_ = States.mppt ∧
      specUpdateState true 0 19 20 false 20 = States.capped) ∧
    (({ Solar.initial with
          millis := 11500
          psu_ := some simPsu } : Solar).doUpdateState.state_ = States.mppt ∧
      specUpdateState true 11500 1 5 false 20 = States.error) := by
  refine ⟨⟨?_, ?_⟩, ?_, ?_⟩
  · rw [doUpdateState_eq _ { simPsu with outCurr_ := 19 } rfl (by decide) (by decide)]
    norm_num [codeUpdateState, Solar.setState, simPsu, Solar.initial, subU32, U32,
      PowerSupply.isCV]
  · norm_num [specUpdateState]
  · rw [doUpdateState_eq _ simPsu rfl (by decide) (by decide)]
    norm_num [codeUpdateState, Solar.setState, simPsu, Solar.initial, subU32, U32,
      PowerSupply.isCV]
  · norm_num [specUpdateState]

/-- C6, as amended: for every prior state other than `sweeping` and
`collapsemode`, with a PSU present, output enabled and more than 11 whole
seconds since the last successful communication, the new state is `error`; in
`sweeping` and `collapsemode` the call leaves the controller as it is. -/
theorem doUpdateState_comm_loss (s : Solar) (p : PowerSupply) (hp : s.psu_ = some p)
    (hen : p.outEn_ = true) (hsilent : subU32 s.millis p.lastSuccess_ / 1000 > 11) :
    (s.state_ ≠ States.sweeping → s.state_ ≠ States.collapsemode →
      s.doUpdateState.state_ = States.error) ∧
    (s.state_ = States.sweeping ∨ s.state_ = States.collapsemode → s.doUpdateState = s) := by
  constructor
  · intro h1 h2
    rw [doUpdateState_eq s p hp h1 h2]
    simp [codeUpdateState, Solar.setState, hen, hsilent]
  · intro h
    exact doUpdateState_skip s p hp h

/-- C6, witness: from `capped`, 20 s after the last communication. -/
theorem doUpdateState_comm_loss_witness :
    ({ Solar.initial with
        state_ := States.capped
        millis := 20000
        psu_ := some simPsu } : Solar).doUpdateState.state_ = States.error :=
  (doUpdateState_comm_loss
    { Solar.initial with
        state_ := States.capped
        millis := 20000
        psu_ := some simPsu } simPsu rfl rfl (by decide)).1 (by decide) (by decide)

/-- C6, counterexample: in `sweeping` (and in `collapsemode`), output enabled and
20 s of PSU silence, the state is not `error` after `doUpdateState`; and from
`mppt` after 11.5 s of silence it is `mppt`. -/
theorem doUpdateState_comm_loss_counterexample :
    ({ Solar.initial with
        state_ := States.sweeping
        millis := 20000
        psu_ := some simPsu } : Solar).doUpdateState.state_ = States.sweeping ∧
    ({ Solar.initial with
        state_ := States.collapsemode
        millis := 20000
        psu_ := some simPsu } : Solar).doUpdateState.state_ = States.collapsemode ∧
    ({ Solar.initial with
        state_ := States.mppt
        millis := 11500
        psu_ := some simPsu } : Solar).doUpdateState.state_ = States.mppt := by
  refine ⟨?_, ?_, ?_⟩
  · rw [doUpdateState_skip _ simPsu rfl (Or.inl rfl)]
  · rw [doUpdateState_skip _ simPsu rfl (Or.inr rfl)]
  · rw [doUpdateState_eq _ simPsu rfl (by decide) (by decide)]
    norm_num [codeUpdateState, Solar.setState, simPsu, Solar.initial, subU32, U32,
      PowerSupply.isCV]

/-! ### Pruning of the collapse log -/

/-- C7, as amended: the pruning step removes at most one entry per call, and
only the front (oldest) one, exactly when that entry is older than 300000 ms
(its age taken as the `uint32_t` difference); every other entry stays, so an
entry aged at most 300000 ms is always retained. -/
theorem pruneCollapses_front_only (t : Nat) (log : List Nat) :
    (Solar.pruneCollapses t log = log ∨ Solar.pruneCollapses t log = log.tail) ∧
    (∀ front rest, log = front :: rest →
      (subU32 t front > 300000 → Solar.pruneCollapses t log = rest) ∧
      (subU32 t front ≤ 300000 → Solar.pruneCollapses t log = log)) ∧
    (∀ ts, ts ∈ log → subU32 t ts ≤ 300000 → ts ∈ Solar.pruneCollapses t log) := by
  refine ⟨?_, ?_, ?_⟩
  · cases log with
    | nil => left; rfl
    | cons front rest =>
      by_cases h : subU32 t front > 5 * 60000
      · right
        simp [Solar.pruneCollapses, h]
      · left
        simp [Solar.pruneCollapses, h]
  · intro front rest hlog
    subst hlog
    constructor
    · intro h
      have h5 : subU32 t front > 5 * 60000 := by omega
      simp [Solar.pruneCollapses, h5]
    · intro h
      have h5 : ¬ subU32 t front > 5 * 60000 := by omega
      simp [Solar.pruneCollapses, h5]
  · intro ts hmem hage
    cases log with
    | nil => cases hmem
    | cons front rest =>
      by_cases h : subU32 t front > 5 * 60000
      · have hne : ts ≠ front := by
          intro e
          subst e
          omega
        have hrest : ts ∈ rest := by
          rcases List.mem_cons.mp hmem with e | e
          · exact absurd e hne
          · exact e
        simp [Solar.pruneCollapses, h, hrest]
      · simp only [Solar.pruneCollapses, h, if_false]
        exact hmem

/-- C7, witness at the boundary: at time 400000 a front entry aged 300001 ms is
removed, and an entry aged 299999 ms behind it is retained. -/
theorem pruneCollapses_front_only_witness :
    Solar.pruneCollapses 400000 [99999, 100001] = [100001] ∧
    100001 ∈ Solar.pruneCollapses 400000 [99999, 100001] :=
  ⟨((pruneCollapses_front_only 400000 [99999, 100001]).2.1 99999 [100001] rfl).1 (by decide),
   (pruneCollapses_front_only 400000 [99999, 100001]).2.2 100001 (by decide) (by decide)⟩

/-- C7, counterexample: with two entries older than 300000 ms (timestamps 0 and 1
at time 400000) one call of the pruning step leaves the second one in the log. -/
theorem pruneCollapses_counterexample :
    Solar.pruneCollapses 400000 [0, 1] = [1] ∧
    (∃ ts, ts ∈ Solar.pruneCollapses 400000 [0, 1] ∧ subU32 400000 ts > 300000) := by
  refine ⟨by decide, 1, by decide, by decide⟩

/-! ### Frame lemmas -/

theorem Frame_refl (s : Solar) : s.Frame s := ⟨rfl, rfl, rfl, rfl, rfl⟩

theorem Frame_trans {a b c : Solar} (h1 : a.Frame b) (h2 : b.Frame c) : a.Frame c := by
  obtain ⟨p1, p2, p3, p4, p5⟩ := h1
  obtain ⟨q1, q2, q3, q4, q5⟩ := h2
  exact ⟨q1.trans p1, q2.trans p2, q3.trans p3, q4.trans p4, q5.trans p5⟩

theorem psuSetCurrent_frame (hw : Hardware) (c : ℚ) (s : Solar) :
    s.Frame (s.psuSetCurrent hw c).2 := by
  simp [Solar.Frame, Solar.psuSetCurrent]

theorem psuEnableOutput_frame (hw : Hardware) (b : Bool) (s : Solar) :
    s.Frame (s.psuEnableOutput hw b) := by
  simp [Solar.Frame, Solar.psuEnableOutput]

theorem psuReadCurrent_frame (hw : Hardware) (s : Solar) :
    s.Frame (s.psuReadCurrent hw) := by
  simp [Solar.Frame, Solar.psuReadCurrent]

theorem delay_frame (ms : Nat) (s : Solar) : s.Frame (s.delay ms) := by
  simp [Solar.Frame, Solar.delay]

theorem updatePSU_frame (hw : Hardware) (s : Solar) : s.Frame (s.updatePSU hw).2 := by
  unfold Solar.updatePSU
  cases h : s.psu_ <;> simp [Solar.Frame, h]

theorem measureInvolt_frame (hw : Hardware) (s : Solar) : s.Frame (s.measureInvolt hw) := by
  unfold Solar.measureInvolt
  cases h : s.psu_ with
  | none => simp [Solar.Frame, h]
  | some p =>
    simp only []
    split_ifs
    · simp [Solar.Frame, Solar.updatePSU, h]
    · simp [Solar.Frame, h]
    · simp [Solar.Frame, h]

theorem restoreWait_frame (hw : Hardware) (start fuel : Nat) (s : Solar) :
    s.Frame (Solar.restoreWait hw start fuel s) := by
  induction fuel generalizing s with
  | zero => exact Frame_refl s
  | succ n ih =>
    unfold Solar.restoreWait
    split_ifs
    · exact Frame_trans (Frame_trans (measureInvolt_frame hw s) (delay_frame 25 _)) (ih _)
    · exact measureInvolt_frame hw s
    · exact Frame_refl s

theorem restoreFinish_frame (hw : Hardware) (c : ℚ) (s : Solar) :
    s.Frame (Solar.restoreFinish hw c s) := by
  unfold Solar.restoreFinish
  refine Frame_trans (Frame_trans (measureInvolt_frame hw s) ?_) (psuSetCurrent_frame hw c _)
  split_ifs
  · simp [Solar.Frame]
  · exact Frame_refl _

/-- With a PSU configured `restoreFromCollapse` returns, and keeps the frame. -/
theorem restoreFromCollapse_frame (hw : Hardware) (c : ℚ) (s : Solar)
    (hp : s.psu_.isSome = true) :
    ∃ s2, Solar.restoreFromCollapse hw c s = Res.ok s2 ∧ s.Frame s2 := by
  unfold Solar.restoreFromCollapse
  cases h : s.psu_ with
  | none => simp [h] at hp
  | some p =>
    exact ⟨_, rfl, Frame_trans (Frame_trans (psuSetCurrent_frame hw 0.01 s)
      (restoreWait_frame hw _ 321 _)) (restoreFinish_frame hw c _)⟩

theorem applyAdjustment_frame (hw : Hardware) (c : ℚ) (s : Solar) :
    s.Frame (Solar.applyAdjustment hw c s) := by
  unfold Solar.applyAdjustment
  cases h : s.psu_ with
  | none => exact Frame_refl s
  | some p =>
    simp only []
    split_ifs
    · exact Frame_trans (Frame_trans (psuSetCurrent_frame hw c s) (delay_frame 50 _))
        (psuReadCurrent_frame hw _)
    · exact Frame_refl s

/-! ### The adjustment step and the backoff level -/

theorem subU32_mod_left (a b : Nat) : subU32 (a % U32) b = subU32 a b := by
  unfold subU32
  rw [Nat.mod_mod]

theorem hasCollapsed_outEn (s : Solar) (h : s.hasCollapsed = true) :
    ∃ p, s.psu_ = some p ∧ p.outEn_ = true := by
  cases hp : s.psu_ with
  | none => simp [Solar.hasCollapsed, hp] at h
  | some p =>
    refine ⟨p, rfl, ?_⟩
    cases hen : p.outEn_ with
    | true => rfl
    | false => simp [Solar.hasCollapsed, hp, hen] at h

/-- The `try` block of `doAdjust` returns; a `Backoff` is thrown exactly when the
spec's backoff condition holds; the state and the backoff level are untouched and
the collapse log grows by at most the current time. -/
theorem adjustTry_spec (hw : Hardware) (d : ℚ) (s : Solar) :
    ∃ s1, Solar.adjustTry hw d (s.millis % U32) s = Res.ok (specSignalsBackoff s, s1) ∧
      s1.backoffLevel_ = s.backoffLevel_ ∧ s1.state_ = s.state_ ∧
      s1.sweepPoints_ = s.sweepPoints_ ∧ s1.psu_.isSome = s.psu_.isSome ∧
      (s1.collapses_ = s.collapses_ ∨ s1.collapses_ = s.collapses_ ++ [s.millis % U32]) := by
  unfold Solar.adjustTry
  by_cases herr : s.state_ = States.error
  · rw [if_pos herr]
    cases hp : s.psu_ with
    | none =>
      refine ⟨s, ?_, rfl, rfl, rfl, hp ▸ rfl, Or.inl rfl⟩
      simp [specSignalsBackoff, hp]
    | some p =>
      by_cases hrec : subU32 s.millis p.lastSuccess_ < 30000
      · have hf := Frame_trans (psuEnableOutput_frame hw false s)
          (psuSetCurrent_frame hw 0 (s.psuEnableOutput hw false))
        refine ⟨_, ?_, hf.2.2.2.1, hf.1, hf.2.1, ?_, Or.inl hf.2.2.1⟩
        · simp [specSignalsBackoff, hp, herr, hrec, Solar.psu, subU32_mod_left]
        · simp [hf.2.2.2.2, hp]
      · refine ⟨s, ?_, rfl, rfl, rfl, by simp [hp], Or.inl rfl⟩
        simp [specSignalsBackoff, hp, herr, hrec, Solar.psu, subU32_mod_left]
  · rw [if_neg herr]
    by_cases hset : s.setpoint_ > 0 ∧ s.state_ ≠ States.sweeping
    · rw [if_pos hset]
      by_cases hc : s.hasCollapsed = true ∧ s.state_ ≠ States.collapsemode
      · obtain ⟨p, hp, hen⟩ := hasCollapsed_outEn s hc.1
        have hsome : ({ s with collapses_ := s.collapses_ ++ [s.millis % U32] } : Solar).psu_.isSome
            = true := by simp [hp]
        obtain ⟨s1, hs1, hf⟩ := restoreFromCollapse_frame hw (s.psu.currFilt_ * 0.95)
          { s with collapses_ := s.collapses_ ++ [s.millis % U32] } hsome
        have hsig : specSignalsBackoff s = false := by
          simp [specSignalsBackoff, hp, herr, hen]
        rw [if_pos hc, hs1, hsig]
        simp only []
        split_ifs
        · have hf2 := applyAdjustment_frame hw d s1
          refine ⟨_, rfl, ?_, ?_, ?_, ?_, Or.inr ?_⟩
          · rw [hf2.2.2.2.1, hf.2.2.2.1]
          · rw [hf2.1, hf.1]
          · rw [hf2.2.1, hf.2.1]
          · rw [hf2.2.2.2.2, hf.2.2.2.2]
          · rw [hf2.2.2.1, hf.2.2.1]
        · exact ⟨_, rfl, hf.2.2.2.1, hf.1, hf.2.1, hf.2.2.2.2, Or.inr hf.2.2.1⟩
      · rw [if_neg hc]
        cases hp : s.psu_ with
        | none =>
          refine ⟨s, ?_, rfl, rfl, rfl, hp ▸ rfl, Or.inl rfl⟩
          simp [specSignalsBackoff, hp]
        | some p =>
          cases hen : p.outEn_ with
          | true =>
            have hsig : specSignalsBackoff s = false := by
              simp [specSignalsBackoff, hp, hen, herr]
            rw [hsig]
            simp only [Solar.psu, hp, Option.getD_some, hen, Option.isSome_some]
            simp only [Bool.true_eq_false, and_false, if_false, true_and]
            have hf2 := applyAdjustment_frame hw d s
            split_ifs
            · exact ⟨_, rfl, hf2.2.2.2.1, hf2.1, hf2.2.1, by simp [hf2.2.2.2.2, hp],
                Or.inl hf2.2.2.1⟩
            · exact ⟨s, rfl, rfl, rfl, rfl, by simp [hp], Or.inl rfl⟩
          | false =>
            simp only [Solar.psu, hp, Option.getD_some, hen, Option.isSome_some, and_self,
              if_true]
            by_cases hv1 : s.inVolt_ < p.outVolt_ ∨ p.outVolt_ < 0.1
            · rw [if_pos hv1]
              refine ⟨s, ?_, rfl, rfl, rfl, by simp [hp], Or.inl rfl⟩
              have hsig : specSignalsBackoff s = true := by
                simp only [specSignalsBackoff, hp, hen]
                rcases hv1 with h | h <;> simp [herr, hset.1, hset.2, h]
              rw [hsig]
            · rw [if_neg hv1]
              by_cases hv2 : p.outVolt_ > p.limitVolt_ ∨
                  (p.outVolt_ < p.limitVolt_ * 0.60 ∧ p.outVolt_ > 1)
              · rw [if_pos hv2]
                refine ⟨s, ?_, rfl, rfl, rfl, by simp [hp], Or.inl rfl⟩
                have hsig : specSignalsBackoff s = true := by
                  simp only [specSignalsBackoff, hp, hen]
                  rcases hv2 with h | h <;> simp [herr, hset.1, hset.2, h]
                rw [hsig]
              · rw [if_neg hv2]
                have hsig : specSignalsBackoff s = false := by
                  simp only [specSignalsBackoff, hp, hen]
                  push_neg at hv1 hv2
                  simp [herr, hset.1, hset.2, hv1.1, hv1.2, hv2.1]
                  intro h1
                  exact hv2.2 h1
                rw [hsig]
                have hf := psuEnableOutput_frame hw true s
                simp only []
                split_ifs
                · have hf2 := applyAdjustment_frame hw d (s.psuEnableOutput hw true)
                  refine ⟨_, rfl, ?_, ?_, ?_, ?_, Or.inl ?_⟩
                  · rw [hf2.2.2.2.1, hf.2.2.2.1]
                  · rw [hf2.1, hf.1]
                  · rw [hf2.2.1, hf.2.1]
                  · simp [hf2.2.2.2.2, hf.2.2.2.2, hp]
                  · rw [hf2.2.2.1, hf.2.2.1]
                · exact ⟨_, rfl, hf.2.2.2.1, hf.1, hf.2.1, by simp [hf.2.2.2.2, hp],
                    Or.inl hf.2.2.1⟩
    · rw [if_neg hset]
      refine ⟨s, ?_, rfl, rfl, rfl, rfl, Or.inl rfl⟩
      have hsig : specSignalsBackoff s = false := by
        unfold specSignalsBackoff
        cases hp : s.psu_ with
        | none => rfl
        | some p =>
          by_cases h0 : s.setpoint_ > 0
          · have hsw : s.state_ = States.sweeping := by
              by_contra hne
              exact hset ⟨h0, hne⟩
            simp [herr, hsw]
          · simp [herr, h0]
      rw [hsig]

theorem restoreFromCollapse_ok_frame (hw : Hardware) (c : ℚ) (s s2 : Solar)
    (h : Solar.restoreFromCollapse hw c s = Res.ok s2) : s.Frame s2 := by
  cases hp : s.psu_ with
  | none => simp [Solar.restoreFromCollapse, hp] at h
  | some p =>
    obtain ⟨s3, h3, hf⟩ := restoreFromCollapse_frame hw c s (by simp [hp])
    rw [h3] at h
    cases h
    exact hf

theorem sweepTail_backoff (hw : Hardware) (s s2 : Solar)
    (h : Solar.sweepTail hw s = Res.ok s2) : s2.backoffLevel_ = s.backoffLevel_ := by
  unfold Solar.sweepTail at h
  split_ifs at h
  · split at h
    · cases h
    · cases h
      exact (applyAdjustment_frame hw _ _).2.2.2.1
  · cases h
    rfl
  · cases h
    exact (applyAdjustment_frame hw _ _).2.2.2.1

theorem sweepConclude_backoff (hw : Hardware) (s s2 : Solar)
    (h : Solar.sweepConclude hw s = Res.ok s2) : s2.backoffLevel_ = s.backoffLevel_ := by
  unfold Solar.sweepConclude at h
  simp only [] at h
  by_cases hc : (s.sweepPoints_.getD (Solar.maxSearch s.sweepPoints_) default).p
      < (s.sweepPoints_.getLastD default).p
  · rw [if_pos hc] at h
    cases h
    simp [Solar.psuSetCurrent, Solar.setState]
  · rw [if_neg hc] at h
    split at h
    · cases h
    · rename_i s3 heq
      split at heq
      · cases heq
      · rename_i s4 hr
        cases heq
        cases h
        exact (restoreFromCollapse_ok_frame hw _ _ _ hr).2.2.2.1

theorem doSweepStep_backoff (hw : Hardware) (s s2 : Solar)
    (h : Solar.doSweepStep hw s = Res.ok s2) : s2.backoffLevel_ = s.backoffLevel_ := by
  unfold Solar.doSweepStep at h
  split at h
  · cases h
    rfl
  · simp only [] at h
    have hu := (updatePSU_frame hw s).2.2.2.1
    split_ifs at h
    · cases h
      rfl
    · split at h
      · cases h
      · rename_i s3 hr
        cases h
        have hf := (restoreFromCollapse_ok_frame hw _ _ _ hr).2.2.2.1
        simp only [Solar.setState]
        rw [hf]
        exact hu
    · split at h
      · cases h
      · rename_i s3 hr
        rw [sweepTail_backoff hw _ _ h, sweepConclude_backoff hw _ _ hr]
        exact hu
    · rw [sweepTail_backoff hw _ _ h]
      exact hu

theorem startSweep_backoff (hw : Hardware) (s s2 : Solar)
    (h : Solar.startSweep hw s = Res.ok s2) : s2.backoffLevel_ = s.backoffLevel_ := by
  unfold Solar.startSweep at h
  split_ifs at h
  · cases h
    rfl
  · split at h
    · cases h
    · rename_i p hp
      simp only [] at h
      have h1 := (psuSetCurrent_frame hw (p.currFilt_ * 0.90) s).2.2.2.1
      split at h
      · cases h
      · rename_i s3 hr
        cases h
        have h3 : s3.backoffLevel_ = s.backoffLevel_ := by
          split_ifs at hr
          · rw [(restoreFromCollapse_ok_frame hw _ _ _ hr).2.2.2.1]
            exact h1
          · cases hr
            exact h1
        show (if _ then _ else _ : Solar).backoffLevel_ = _
        split_ifs
        · exact h3
        · exact h3

theorem doUpdateState_backoff (s : Solar) :
    s.doUpdateState.backoffLevel_ = s.backoffLevel_ := by
  unfold Solar.doUpdateState
  split
  · rfl
  · simp only []
    split_ifs <;> rfl

theorem doMeasure_backoff (hw : Hardware) (s s2 : Solar) (d : ℚ)
    (h : Solar.doMeasure hw s = Res.ok (d, s2)) : s2.backoffLevel_ = s.backoffLevel_ := by
  unfold Solar.doMeasure at h
  have hm := (measureInvolt_frame hw s).2.2.2.1
  simp only [] at h
  split_ifs at h
  · split at h
    · cases h
    · rename_i s3 hr
      cases h
      rw [doSweepStep_backoff hw _ _ hr]
      exact hm
  all_goals
    cases h
    exact hm

/-- C9: with the backoff level in [0, 8] before `doAdjust`, the call returns with
the level again in [0, 8]; the new level is `min(old + 1, 8)` exactly when the
call signalled backoff and `max(old - 1, 0)` otherwise; and `startSweep`,
`doSweepStep`, `doUpdateState` and `doMeasure` leave the level unchanged. -/
theorem doAdjust_backoffLevel (hw : Hardware) (d : ℚ) (s : Solar)
    (h0 : 0 ≤ s.backoffLevel_) (h8 : s.backoffLevel_ ≤ 8) :
    (∃ s2, Solar.doAdjust hw d s = Res.ok s2 ∧
      0 ≤ s2.backoffLevel_ ∧ s2.backoffLevel_ ≤ 8 ∧
      (s2.backoffLevel_ = min (s.backoffLevel_ + 1) 8 ↔ specSignalsBackoff s = true) ∧
      (specSignalsBackoff s = false → s2.backoffLevel_ = max (s.backoffLevel_ - 1) 0)) ∧
    (∀ s2, Solar.startSweep hw s = Res.ok s2 → s2.backoffLevel_ = s.backoffLevel_) ∧
    (∀ s2, Solar.doSweepStep hw s = Res.ok s2 → s2.backoffLevel_ = s.backoffLevel_) ∧
    s.doUpdateState.backoffLevel_ = s.backoffLevel_ ∧
    (∀ c s2, Solar.doMeasure hw s = Res.ok (c, s2) → s2.backoffLevel_ = s.backoffLevel_) := by
  refine ⟨?_, startSweep_backoff hw s, doSweepStep_backoff hw s, doUpdateState_backoff s,
    fun c s2 h => doMeasure_backoff hw s s2 c h⟩
  obtain ⟨s1, h1, hb, -, -, -, -⟩ := adjustTry_spec hw d s
  unfold Solar.doAdjust
  rw [h1]
  cases hsig : specSignalsBackoff s with
  | true =>
    refine ⟨_, rfl, ?_, ?_, ?_, ?_⟩
    · show 0 ≤ min (s1.backoffLevel_ + 1) 8
      rw [hb]
      omega
    · show min (s1.backoffLevel_ + 1) 8 ≤ 8
      omega
    · show min (s1.backoffLevel_ + 1) 8 = min (s.backoffLevel_ + 1) 8 ↔ true = true
      rw [hb]
      simp
    · intro h
      cases h
  | false =>
    refine ⟨_, rfl, ?_, ?_, ?_, ?_⟩
    · show 0 ≤ max (s1.backoffLevel_ - 1) 0
      omega
    · show max (s1.backoffLevel_ - 1) 0 ≤ 8
      rw [hb]
      omega
    · show max (s1.backoffLevel_ - 1) 0 = min (s.backoffLevel_ + 1) 8 ↔ false = true
      rw [hb]
      constructor
      · intro h
        omega
      · intro h
        cases h
    · intro _
      show max (s1.backoffLevel_ - 1) 0 = max (s.backoffLevel_ - 1) 0
      rw [hb]

/-- C9, witness: in `error` state at level 3 with a PSU heard from just now, the
call signals backoff and the level becomes 4. -/
theorem doAdjust_backoffLevel_witness :
    ∃ s2, Solar.doAdjust simHw 1
        { Solar.initial with
            state_ := States.error
            backoffLevel_ := 3
            psu_ := some simPsu } = Res.ok s2 ∧ s2.backoffLevel_ = 4 := by
  obtain ⟨s2, h, -, -, hiff, -⟩ := (doAdjust_backoffLevel simHw 1
    { Solar.initial with
        state_ := States.error
        backoffLevel_ := 3
        psu_ := some simPsu } (by decide) (by decide)).1
  refine ⟨s2, h, ?_⟩
  have hs := hiff.mpr (by simp [specSignalsBackoff, Solar.initial, simPsu, subU32, U32])
  rw [hs]
  decide

/-! ### The polling loop of `restoreFromCollapse` -/

theorem measureInvolt_millis (hw : Hardware) (s : Solar) :
    (s.measureInvolt hw).millis = s.millis := by
  unfold Solar.measureInvolt
  cases h : s.psu_ with
  | none => rfl
  | some p =>
    simp only []
    split_ifs
    · simp [Solar.updatePSU]
    · rfl
    · rfl

/-- When the first measurement reaches the threshold the loop ends after it. -/
theorem restoreWait_exit (hw : Hardware) (start fuel : Nat) (s : Solar) (hf : 0 < fuel)
    (h1 : subU32 s.millis start < 8000)
    (h2 : ¬ (s.measureInvolt hw).inVolt_ < (s.measureInvolt hw).offThreshold_) :
    Solar.restoreWait hw start fuel s = s.measureInvolt hw := by
  cases fuel with
  | zero => omega
  | succ n => rw [Solar.restoreWait, if_pos h1, if_neg h2]

/-- More tests than needed to reach 8000 ms do not change the result of the loop. -/
theorem restoreWait_extra (hw : Hardware) (start : Nat) (j : Nat) :
    ∀ (s : Solar), 8000 ≤ subU32 s.millis start + 25 * j →
      ∀ n, Solar.restoreWait hw start (j + 1 + n) s = Solar.restoreWait hw start (j + 1) s := by
  induction j with
  | zero =>
    intro s h n
    have hc : ¬ subU32 s.millis start < 8000 := by omega
    rw [show 0 + 1 + n = n + 1 by omega, Solar.restoreWait, if_neg hc, Solar.restoreWait,
      if_neg hc]
  | succ j ih =>
    intro s h n
    rw [show j + 1 + 1 + n = (j + 1 + n) + 1 by omega, Solar.restoreWait]
    conv_rhs => rw [Solar.restoreWait]
    by_cases hc : subU32 s.millis start < 8000
    · rw [if_pos hc, if_pos hc]
      by_cases hm : (s.measureInvolt hw).inVolt_ < (s.measureInvolt hw).offThreshold_
      · rw [if_pos hm, if_pos hm]
        apply ih
        have hmil : ((s.measureInvolt hw).delay 25).millis = addU32 s.millis 25 := by
          simp [Solar.delay, measureInvolt_millis]
        rw [hmil]
        unfold subU32 addU32 U32 at *
        omega
      · rw [if_neg hm, if_neg hm]
    · rw [if_neg hc, if_neg hc]

/-- The bound of 321 tests in `restoreFromCollapse` is never the reason the loop
stops: any larger bound gives the same result. -/
theorem restoreWait_fuel (hw : Hardware) (s : Solar) (n : Nat) :
    Solar.restoreWait hw s.millis (321 + n) s = Solar.restoreWait hw s.millis 321 s := by
  have h := restoreWait_extra hw s.millis 320 s (by omega) n
  exact h

/-! ### The max search of the sweep -/

/-- The invariant of the max search after `n` iterations, when sample 0 is not collapsed. -/
theorem maxSearch_invariant (pts : List SPoint)
    (h0 : (pts.getD 0 default).collapsed = false) (n : Nat) :
    ((List.range n).foldl (Solar.maxStep pts) 0 < n ∨
        (List.range n).foldl (Solar.maxStep pts) 0 = 0) ∧
    (pts.getD ((List.range n).foldl (Solar.maxStep pts) 0) default).collapsed = false ∧
    (∀ j, j < n → (pts.getD j default).collapsed = false →
      (pts.getD j default).p ≤ (pts.getD ((List.range n).foldl (Solar.maxStep pts) 0) default).p) ∧
    (∀ j, j < (List.range n).foldl (Solar.maxStep pts) 0 → (pts.getD j default).collapsed = false →
      (pts.getD j default).p < (pts.getD ((List.range n).foldl (Solar.maxStep pts) 0) default).p) := by
  induction n with
  | zero =>
    refine ⟨Or.inr rfl, h0, ?_, ?_⟩
    · intro j hj
      omega
    · intro j hj
      simp at hj
  | succ n ih =>
    obtain ⟨hm, hc, hle, hlt⟩ := ih
    rw [List.range_succ, List.foldl_append]
    simp only [List.foldl_cons, List.foldl_nil]
    generalize (List.range n).foldl (Solar.maxStep pts) 0 = m at hm hc hle hlt
    unfold Solar.maxStep
    by_cases hstep : (!(pts.getD n default).collapsed) = true ∧
        (pts.getD n default).p > (pts.getD m default).p
    · rw [if_pos hstep]
      refine ⟨Or.inl (by omega), by simpa using hstep.1, ?_, ?_⟩
      · intro j hj hcj
        rcases Nat.lt_succ_iff_lt_or_eq.mp hj with h | h
        · exact le_of_lt (lt_of_le_of_lt (hle j h hcj) hstep.2)
        · rw [h]
      · intro j hj hcj
        exact lt_of_le_of_lt (hle j hj hcj) hstep.2
    · rw [if_neg hstep]
      refine ⟨?_, hc, ?_, hlt⟩
      · rcases hm with h | h
        · exact Or.inl (by omega)
        · exact Or.inr h
      · intro j hj hcj
        rcases Nat.lt_succ_iff_lt_or_eq.mp hj with h | h
        · exact hle j h hcj
        · subst h
          have hnc : (!(pts.getD j default).collapsed) = true := by
            rw [hcj]
            rfl
          exact not_lt.mp (fun hgt => hstep ⟨hnc, hgt⟩)

/-- When the first sample of a non-empty buffer is not collapsed, the max search
returns the earliest index of a non-collapsed sample of maximal power. -/
theorem maxSearch_first_sample_live (pts : List SPoint) (hne : pts ≠ [])
    (h0 : (pts.getD 0 default).collapsed = false) :
    Solar.maxSearch pts < pts.length ∧
    (pts.getD (Solar.maxSearch pts) default).collapsed = false ∧
    (∀ j, j < pts.length → (pts.getD j default).collapsed = false →
      (pts.getD j default).p ≤ (pts.getD (Solar.maxSearch pts) default).p) ∧
    (∀ j, j < Solar.maxSearch pts → (pts.getD j default).collapsed = false →
      (pts.getD j default).p < (pts.getD (Solar.maxSearch pts) default).p) := by
  obtain ⟨hm, hc, hle, hlt⟩ := maxSearch_invariant pts h0 pts.length
  have hpos : 0 < pts.length := List.length_pos.mpr hne
  refine ⟨?_, hc, hle, hlt⟩
  unfold Solar.maxSearch
  rcases hm with h | h
  · exact h
  · rw [h]
    exact hpos

/-! ### The sweep step on concrete buffers -/

/-- C3, evaluation at a failing buffer: on the concluding buffer (collapsed 10 W,
non-collapsed 5 W, collapsed 8 W) the max search returns index 0, a collapsed
sample, although sample 1 is the only non-collapsed one. -/
theorem maxSearch_selects_collapsed_sample :
    Solar.maxSearch (ptsA ++ [ptC]) = 0 ∧
    ((ptsA ++ [ptC]).getD (Solar.maxSearch (ptsA ++ [ptC])) default).collapsed = true ∧
    ((ptsA ++ [ptC]).getD 1 default).collapsed = false ∧
    Solar.collapsedPoints (ptsA ++ [ptC]) = 2 ∧ Solar.nonCollapsedPoints (ptsA ++ [ptC]) = 1 ∧
    (ptsA ++ [ptC]).getLast? = some ptC := by
  have h : Solar.maxSearch (ptsA ++ [ptC]) = 0 := by
    simp [Solar.maxSearch, Solar.maxStep, ptsA, ptC, List.range, List.range.loop, SPoint.p]
    norm_num
  refine ⟨h, ?_, ?_, ?_, ?_, ?_⟩
  · rw [h]
    simp [ptsA]
  · simp [ptsA]
  · simp [Solar.collapsedPoints, ptsA, ptC]
  · simp [Solar.nonCollapsedPoints, ptsA, ptC]
  · simp

/-- C4, evaluation at failing inputs: (1) the step concluding on the buffer
(collapsed 10 W, non-collapsed 5 W, collapsed 8 W), where every non-collapsed
sample has less power than the final collapsed one, returns in state `mppt`;
(2) the step concluding on (non-collapsed 5 W, collapsed 8 W, collapsed 8 W)
chooses `collapsemode`, sets the current to the cap, and then the cap check reads
`back()` of the buffer it has just cleared. -/
theorem doSweepStep_ends_in_mppt :
    (∃ s2, Solar.doSweepStep simHw sweepA = Res.ok s2 ∧ s2.state_ = States.mppt ∧
      s2.sweepPoints_ = []) ∧
    (∀ q, q ∈ sweepA.sweepPoints_ ++ [ptC] → q.collapsed = false → q.p < ptC.p) ∧
    Solar.doSweepStep simHw sweepB = Res.fault Fault.emptyBack := by
  refine ⟨?_, ?_, ?_⟩
  · simp [Solar.doSweepStep, Solar.sweepTail, Solar.sweepConclude, Solar.applyAdjustment,
      Solar.updatePSU, Solar.restoreFromCollapse, restoreWait_exit, Solar.restoreFinish,
      Solar.measureInvolt, Solar.maxSearch, Solar.maxStep, ptsA, List.range, List.range.loop,
      SPoint.p, sweepA, Solar.initial, simPsu, simHw, Solar.psuSetCurrent, Solar.hasCollapsed,
      Solar.getCollapses, Solar.setState, Solar.psu, PowerSupply.isDrok, PowerSupply.isCollapsed,
      Solar.psuReadCurrent, Solar.delay, Solar.collapsedPoints, Solar.nonCollapsedPoints,
      PowerSupply.isCV, subU32, addU32, U32]
    norm_num
  · intro q hq hc
    simp [sweepA, ptsA, ptC] at hq
    rcases hq with h | h | h
    · subst h
      simp at hc
    · subst h
      norm_num [SPoint.p, ptC]
    · subst h
      simp at hc
  · simp [Solar.doSweepStep, Solar.sweepTail, Solar.sweepConclude, Solar.applyAdjustment,
      Solar.updatePSU,
      Solar.maxSearch, Solar.maxStep, ptC, List.range, List.range.loop,
      SPoint.p, sweepB, Solar.initial, simPsu, simHw, Solar.psuSetCurrent, Solar.hasCollapsed,
      Solar.getCollapses, Solar.setState, Solar.psu, PowerSupply.isDrok, PowerSupply.isCollapsed,
      Solar.psuReadCurrent, Solar.delay, Solar.collapsedPoints, Solar.nonCollapsedPoints,
      PowerSupply.isCV, subU32, addU32, U32]
    norm_num

/-- C8, evaluation at a failing run: from the initial state (`off`, empty buffer)
`startSweep` followed by one `doSweepStep` that hits the current cap leaves the
state `mppt` with one sample still in the sweep buffer. -/
theorem sweep_buffer_survives :
    capBoot.state_ = States.off ∧ capBoot.sweepPoints_ = [] ∧
    Solar.startSweep simHw capBoot = Res.ok capSweeping ∧
    Solar.doSweepStep simHw capSweeping = Res.ok capDone ∧
    Reachable simHw capBoot capDone ∧
    capDone.sweepPoints_ ≠ [] ∧ capDone.state_ ≠ States.sweeping := by
  have h1 : Solar.startSweep simHw capBoot = Res.ok capSweeping := by
    simp [Solar.startSweep, capBoot, capSweeping, Solar.initial, simPsu, simHw,
      Solar.psuSetCurrent, Solar.hasCollapsed, Solar.setState, Solar.psu, PowerSupply.isDrok,
      PowerSupply.isCollapsed, Solar.psuEnableOutput, U32]
    norm_num
  have h2 : Solar.doSweepStep simHw capSweeping = Res.ok capDone := by
    simp [Solar.doSweepStep, Solar.sweepTail, Solar.applyAdjustment, Solar.updatePSU,
      capSweeping, capDone, Solar.initial, simPsu, simHw, Solar.psuSetCurrent,
      Solar.hasCollapsed, Solar.setState, Solar.psu, PowerSupply.isDrok,
      PowerSupply.isCollapsed, Solar.psuReadCurrent, Solar.delay, Solar.collapsedPoints,
      Solar.nonCollapsedPoints, PowerSupply.isCV, addU32, U32]
    norm_num
  refine ⟨rfl, rfl, h1, h2, ?_, ?_, ?_⟩
  · exact Reachable.doSweepStep _ _ (Reachable.startSweep _ _ Reachable.start h1) h2
  · simp [capDone]
  · simp [capDone]

/-! ### Applying the desired current -/

theorem setCurrentCount_append (a b : List PsuCmd) :
    setCurrentCount (a ++ b) = setCurrentCount a + setCurrentCount b := by
  unfold setCurrentCount
  exact List.countP_append _ a b

/-- What one call of `applyAdjustment` issues: nothing without a PSU or when the
desired current equals the limit, otherwise one `setCurrent` and one `readCurrent`. -/
theorem applyAdjustment_cmds (hw : Hardware) (c : ℚ) (s : Solar) :
    (s.psu_ = none → Solar.applyAdjustment hw c s = s) ∧
    (∀ p, s.psu_ = some p → p.limitCurr_ = c → Solar.applyAdjustment hw c s = s) ∧
    (∀ p, s.psu_ = some p → p.limitCurr_ ≠ c →
      (Solar.applyAdjustment hw c s).cmds
        = s.cmds ++ [PsuCmd.setCurrent c, PsuCmd.readCurrent]) := by
  refine ⟨?_, ?_, ?_⟩
  · intro h
    simp [Solar.applyAdjustment, h]
  · intro p h hl
    simp [Solar.applyAdjustment, h, hl]
  · intro p h hl
    have hl2 : c ≠ p.limitCurr_ := fun e => hl e.symm
    simp [Solar.applyAdjustment, h, hl2, Solar.psuSetCurrent, Solar.delay, Solar.psuReadCurrent]

/-- C11, as amended: a call of `applyAdjustment(c)` with `c` equal to the PSU's
current limit, or without a PSU, issues no command and changes nothing; any call
issues at most one `setCurrent`; and when the PSU's current limit equals `c` after
the first call, a second call is a no-op, so that the two calls together issue at
most one `setCurrent`. -/
theorem applyAdjustment_idempotent (hw : Hardware) (c : ℚ) (s : Solar) :
    (∀ p, s.psu_ = some p → p.limitCurr_ = c → Solar.applyAdjustment hw c s = s) ∧
    (s.psu_ = none → Solar.applyAdjustment hw c s = s) ∧
    setCurrentCount (Solar.applyAdjustment hw c s).cmds ≤ setCurrentCount s.cmds + 1 ∧
    ((Solar.applyAdjustment hw c s).psu.limitCurr_ = c →
      Solar.applyAdjustment hw c (Solar.applyAdjustment hw c s) = Solar.applyAdjustment hw c s ∧
      setCurrentCount (Solar.applyAdjustment hw c (Solar.applyAdjustment hw c s)).cmds
        ≤ setCurrentCount s.cmds + 1) := by
  obtain ⟨hnone, heq, hne⟩ := applyAdjustment_cmds hw c s
  have hcount : setCurrentCount (Solar.applyAdjustment hw c s).cmds
      ≤ setCurrentCount s.cmds + 1 := by
    cases hp : s.psu_ with
    | none =>
      rw [hnone hp]
      omega
    | some p =>
      by_cases hl : p.limitCurr_ = c
      · rw [heq p hp hl]
        omega
      · rw [hne p hp hl, setCurrentCount_append]
        simp [setCurrentCount]
  refine ⟨heq, hnone, hcount, ?_⟩
  intro hlim
  have hsecond : Solar.applyAdjustment hw c (Solar.applyAdjustment hw c s)
      = Solar.applyAdjustment hw c s := by
    obtain ⟨hnone2, heq2, -⟩ := applyAdjustment_cmds hw c (Solar.applyAdjustment hw c s)
    cases hp2 : (Solar.applyAdjustment hw c s).psu_ with
    | none => exact hnone2 hp2
    | some q =>
      apply heq2 q hp2
      simpa [Solar.psu, hp2] using hlim
  refine ⟨hsecond, ?_⟩
  rw [hsecond]
  exact hcount

/-- C11, witness: with the simulated PSU at a limit of 1 A, two calls for 2 A issue
one `setCurrent`, and a call for 1 A issues nothing. -/
theorem applyAdjustment_idempotent_witness :
    setCurrentCount (Solar.applyAdjustment simHw 2 (Solar.applyAdjustment simHw 2
      { Solar.initial with psu_ := some simPsu })).cmds ≤ 0 + 1 ∧
    Solar.applyAdjustment simHw 1 { Solar.initial with psu_ := some simPsu }
      = { Solar.initial with psu_ := some simPsu } :=
  ⟨((applyAdjustment_idempotent simHw 2 { Solar.initial with psu_ := some simPsu }).2.2.2
      (by simp [Solar.applyAdjustment, Solar.psuSetCurrent, Solar.delay, Solar.psuReadCurrent,
        Solar.psu, simHw, simPsu, Solar.initial])).2,
   (applyAdjustment_idempotent simHw 1 { Solar.initial with psu_ := some simPsu }).1 simPsu rfl
      rfl⟩

/-- C11, counterexample: when `setCurrent` fails and leaves the limit at 1 A, two
calls of `applyAdjustment(2)` issue two `setCurrent` commands. -/
theorem applyAdjustment_twice_counterexample :
    (Solar.applyAdjustment deafHw 2 (Solar.applyAdjustment deafHw 2
      { Solar.initial with psu_ := some simPsu })).cmds
      = [PsuCmd.setCurrent 2, PsuCmd.readCurrent, PsuCmd.setCurrent 2, PsuCmd.readCurrent] ∧
    setCurrentCount (Solar.applyAdjustment deafHw 2 (Solar.applyAdjustment deafHw 2
      { Solar.initial with psu_ := some simPsu })).cmds = 2 := by
  have h : (Solar.applyAdjustment deafHw 2 (Solar.applyAdjustment deafHw 2
      { Solar.initial with psu_ := some simPsu })).cmds
      = [PsuCmd.setCurrent 2, PsuCmd.readCurrent, PsuCmd.setCurrent 2, PsuCmd.readCurrent] := by
    simp [Solar.applyAdjustment, Solar.psuSetCurrent, Solar.delay, Solar.psuReadCurrent,
      deafHw, simPsu, Solar.initial]
  refine ⟨h, ?_⟩
  rw [h]
  simp [setCurrentCount]

/-! ### Low-voltage protection -/

/-- After `trigger(t)` the latch reads back as `t`, for both settings of the inversion flag. -/
theorem isTriggered_trigger (t : Bool) (lv : LowVoltageProtect) :
    (lv.trigger t).isTriggered = t := by
  cases t <;> cases h : lv.invert_ <;>
    simp [LowVoltageProtect.trigger, LowVoltageProtect.isTriggered, h]

/-- C12: for a due check with a PSU present: when not triggered the relay becomes
triggered iff output voltage < trigger threshold, the next check then being
5000 ms later; when triggered it is released iff output voltage > recovery
threshold, the next check then being 10000 ms later; otherwise the protection is
unchanged. With trigger 12.0 V and recovery 12.96 V the voltages 13.0, 11.9,
12.5, 13.0 give not tripped, tripped, still tripped, released, for both
settings of the inversion flag. -/
theorem loopLowVoltage_hysteresis (now : Nat) (s : Solar) (p : PowerSupply)
    (lv : LowVoltageProtect) (hp : s.psu_ = some p) (hdue : now > lv.nextCheck_) :
    (∃ lv2, (Solar.loopLowVoltage now s (some lv)).2 = some lv2 ∧
      (lv.isTriggered = false →
        (lv2.isTriggered = true ↔ p.outVolt_ < lv.threshold_) ∧
        (p.outVolt_ < lv.threshold_ → lv2.nextCheck_ = addU32 now 5000) ∧
        (¬ p.outVolt_ < lv.threshold_ → lv2 = lv)) ∧
      (lv.isTriggered = true →
        (lv2.isTriggered = false ↔ p.outVolt_ > lv.threshRecovery_) ∧
        (p.outVolt_ > lv.threshRecovery_ → lv2.nextCheck_ = addU32 now 10000) ∧
        (¬ p.outVolt_ > lv.threshRecovery_ → lv2 = lv))) ∧
    (∀ inv : Bool,
      (lvTick 1 13.0 (lvNew inv)).isTriggered = false ∧
      (lvTick 2 11.9 (lvTick 1 13.0 (lvNew inv))).isTriggered = true ∧
      (lvTick 6000 12.5 (lvTick 2 11.9 (lvTick 1 13.0 (lvNew inv)))).isTriggered = true ∧
      (lvTick 12000 13.0
        (lvTick 6000 12.5 (lvTick 2 11.9 (lvTick 1 13.0 (lvNew inv))))).isTriggered = false) := by
  constructor
  · unfold Solar.loopLowVoltage
    simp only [if_pos hdue, hp, Solar.psu, Option.getD_some, Option.isSome_some, true_and]
    cases ht : lv.isTriggered with
    | false =>
      by_cases hv : p.outVolt_ < lv.threshold_
      · refine ⟨{ lv.trigger true with nextCheck_ := addU32 now (5 * 1000) }, by simp [hv], ?_, ?_⟩
        · intro _
          refine ⟨?_, ?_, ?_⟩
          · simp [hv, LowVoltageProtect.isTriggered, LowVoltageProtect.trigger]
          · intro _
            rfl
          · intro h
            exact absurd hv h
        · intro h
          cases h
      · refine ⟨lv, by simp [hv], ?_, ?_⟩
        · intro _
          refine ⟨?_, ?_, ?_⟩
          · simp [hv, ht]
          · intro h
            exact absurd h hv
          · intro _
            rfl
        · intro h
          cases h
    | true =>
      by_cases hv : p.outVolt_ > lv.threshRecovery_
      · refine ⟨{ lv.trigger false with nextCheck_ := addU32 now 10000 }, by simp [hv], ?_, ?_⟩
        · intro h
          cases h
        · intro _
          refine ⟨?_, ?_, ?_⟩
          · simp [hv, LowVoltageProtect.isTriggered, LowVoltageProtect.trigger]
          · intro _
            rfl
          · intro h
            exact absurd hv h
      · refine ⟨lv, by simp [hv], ?_, ?_⟩
        · intro h
          cases h
        · intro _
          refine ⟨?_, ?_, ?_⟩
          · simp [hv, ht]
          · intro h
            exact absurd h hv
          · intro _
            rfl
  · intro inv
    cases inv <;>
      norm_num [lvTick, lvNew, Solar.loopLowVoltage, LowVoltageProtect.isTriggered,
        LowVoltageProtect.trigger, Solar.psu, Solar.initial, simPsu, addU32, U32, Solar.delay]

/-- C12, witness: a due check at time 2 with the output at 11.9 V trips the relay. -/
theorem loopLowVoltage_hysteresis_witness :
    ∃ lv2, (Solar.loopLowVoltage 2
        { Solar.initial with psu_ := some { simPsu with outVolt_ := 11.9 } }
        (some (lvNew false))).2 = some lv2 ∧ lv2.isTriggered = true := by
  obtain ⟨lv2, h, hnot, -⟩ := (loopLowVoltage_hysteresis 2
    { Solar.initial with psu_ := some { simPsu with outVolt_ := 11.9 } }
    { simPsu with outVolt_ := 11.9 } (lvNew false) rfl (by decide)).1
  exact ⟨lv2, h, (hnot (by decide)).1.mpr (by norm_num [lvNew])⟩

/-! ### The desired current -/

/-- As long as neither `t + p` nor `t + d` passes `2^32`, an activity scheduled at
`t` with period `p` is found due at `t + d` exactly when `d > p`. -/
theorem loopPrint_no_rollover (t p d : Nat) (h1 : t + p < U32) (h2 : t + d < U32) :
    (loopPrint (addU32 t d) (p : Int) (addU32 t (toU32 (p : Int)))).1 = true ↔ d > p := by
  have hp : toU32 (p : Int) = p := by
    unfold toU32
    unfold U32 at h1
    omega
  have e1 : addU32 t p = t + p := by
    unfold addU32
    exact Nat.mod_eq_of_lt h1
  have e2 : addU32 t d = t + d := by
    unfold addU32
    exact Nat.mod_eq_of_lt h2
  unfold loopPrint
  rw [hp, e1, e2]
  by_cases h : t + d > t + p
  · rw [if_pos h]
    constructor
    · intro _
      omega
    · intro _
      rfl
  · rw [if_neg h]
    constructor
    · intro hf
      cases hf
    · intro hd
      omega

/-- C14, evaluation at failing inputs: (1) scheduled at `t = 2^32 - 100` with period
200 the next due time wraps to 100, and the tick 50 ms later (`now = 2^32 - 50`) finds
the activity due although `d = 50 < p = 200`; (2) scheduled at the same `t` with
period 50 the next due time is `2^32 - 50`, and the tick 200 ms later (`now = 100`)
finds it not due although `d = 200 > p = 50`. -/
theorem loopPrint_rollover :
    ((loopPrint 4294967196 200 0).2 = 100 ∧
      addU32 4294967196 50 = 4294967246 ∧
      (loopPrint (addU32 4294967196 50) 200 (loopPrint 4294967196 200 0).2).1 = true) ∧
    ((loopPrint 4294967196 50 0).2 = 4294967246 ∧
      addU32 4294967196 200 = 100 ∧
      (loopPrint (addU32 4294967196 200) 50 (loopPrint 4294967196 50 0).2).1 = false) := by
  decide

/-! ### The cap check after a concluded sweep -/

/-- The conclusion block always leaves the sweep buffer empty. -/
theorem sweepConclude_clears (hw : Hardware) (s s3 : Solar)
    (h : Solar.sweepConclude hw s = Res.ok s3) : s3.sweepPoints_ = [] := by
  unfold Solar.sweepConclude at h
  simp only [] at h
  split at h
  · cases h
  · cases h
    rfl

/-- Whenever a step concludes the sweep and the current limit has then reached the
cap, the cap check reads `back()` of an empty buffer. -/
theorem sweepTail_after_conclude (hw : Hardware) (s s3 : Solar)
    (h : Solar.sweepConclude hw s = Res.ok s3) (hcap : s3.psu.limitCurr_ ≥ s3.currentCap_) :
    Solar.sweepTail hw s3 = Res.fault Fault.emptyBack := by
  unfold Solar.sweepTail
  rw [if_pos hcap, sweepConclude_clears hw s s3 h]
  rfl

/-- With a sample in the buffer (as on every step that does not conclude the sweep,
which has just recorded one) the end of the step returns without a fault. -/
theorem sweepTail_nonempty (hw : Hardware) (s : Solar) (h : s.sweepPoints_ ≠ []) :
    ∃ s2, Solar.sweepTail hw s = Res.ok s2 := by
  unfold Solar.sweepTail
  split_ifs
  · cases hl : s.sweepPoints_.getLast? with
    | none => exact absurd (List.getLast?_eq_none_iff.mp hl) h
    | some b => exact ⟨_, rfl⟩
  · exact ⟨_, rfl⟩
  · exact ⟨_, rfl⟩

/-- C15, evaluation at a failing input: the step that concludes the sweep on
(6 W, 7 W non-collapsed, 9 W collapsed, 9 W collapsed) chooses `collapsemode`, sets
the current to the cap of 5 A and clears the buffer; the cap check of the same step
then reads `sweepPoints_.back()` of the empty buffer. -/
theorem doSweepStep_reads_empty_buffer :
    Solar.doSweepStep simHw sweepD = Res.fault Fault.emptyBack ∧
    (∃ s3, Solar.sweepConclude simHw
        { sweepD with
            sweepPoints_ := sweepD.sweepPoints_ ++
              [{ v := 9, i := 1, input := 12, collapsed := true }]
            cmds := [PsuCmd.doUpdate] } = Res.ok s3 ∧
      s3.state_ = States.collapsemode ∧ s3.sweepPoints_ = [] ∧
      s3.psu.limitCurr_ = 5 ∧ s3.currentCap_ = 5) := by
  constructor
  · simp [Solar.doSweepStep, Solar.sweepTail, Solar.sweepConclude, Solar.updatePSU,
      Solar.maxSearch, Solar.maxStep, List.range, List.range.loop,
      SPoint.p, sweepD, Solar.initial, simPsu, simHw, Solar.psuSetCurrent, Solar.hasCollapsed,
      Solar.setState, Solar.psu, PowerSupply.isDrok, PowerSupply.isCollapsed,
      Solar.collapsedPoints, Solar.nonCollapsedPoints, addU32, U32]
    norm_num
  · simp [Solar.sweepConclude, Solar.maxSearch, Solar.maxStep, List.range, List.range.loop,
      SPoint.p, sweepD, Solar.initial, simPsu, simHw, Solar.psuSetCurrent,
      Solar.setState, Solar.psu, addU32, U32]
    norm_num

end MPPT
